import Mathlib

/-!
Verification development for the voxel Christmas scene-exploration game
(`src/App.tsx`, `src/components/*`, and the world generator module).

Modelling conventions, used consistently below:

* JavaScript numbers are modelled as rationals (`ℚ`).  The transcendental
  library functions (`Math.sin`, `Math.cos`, `Math.sqrt`, `Math.pow`,
  `Math.atan2`) and the constant `Math.PI` have no exact rational meaning,
  so they are carried as an abstract structure `JsMath` of functions;
  every theorem quantifies over it, i.e. holds for any implementation of
  the math library.
* Where the source compares `Math.sqrt e < c` (or `> c`) against a
  non-negative constant `c` and uses the square root for nothing else, the
  comparison is translated to the exactly equivalent `e < c^2`
  (a correctly rounded square root satisfies `sqrt e < c ↔ e < c²`
  whenever `c²` is exactly representable, which holds for the small integer
  constants 5, 6, 8, 16 used here).  Where the source consumes the value of
  `Math.sqrt` (the world generator's depth profile and path lengths), the
  abstract `JsMath.sqrt` field is used instead.
* `Math.random()` is modelled as an explicit stream `rng : ℕ → ℚ` of
  samples together with a running index; validity of the stream
  (`∀ n, 0 ≤ rng n ∧ rng n < 1`) is an explicit hypothesis where needed.
  JavaScript's `&&`/`||` short-circuiting determines whether a
  `Math.random()` call is reached, and the embedding consumes stream
  elements accordingly.
* `Math.round x` is `⌊x + 1/2⌋` (JavaScript rounds half toward +∞) and
  `Math.floor` is `⌊·⌋`.
-/

/-- Abstract interface of the JavaScript math library: the embedding is
parametric in the meaning of the transcendental functions and `Math.PI`. -/
structure JsMath where
  sin : ℚ → ℚ
  cos : ℚ → ℚ
  sqrt : ℚ → ℚ
  pow : ℚ → ℚ → ℚ
  atan2 : ℚ → ℚ → ℚ
  pi : ℚ

/-- A degenerate but perfectly legal instantiation of the math interface,
used to build concrete executions. -/
def M0 : JsMath := ⟨fun _ => 0, fun _ => 0, fun _ => 0, fun _ _ => 0, fun _ _ => 0, 0⟩

/-- The all-zero sample stream: every `Math.random()` call returns 0. -/
def rng0 : ℕ → ℚ := fun _ => 0

/-- A sample stream is valid when every draw lies in `[0, 1)`, as
`Math.random()` guarantees. -/
def ValidRng (rng : ℕ → ℚ) : Prop := ∀ n, 0 ≤ rng n ∧ rng n < 1

/-- `Math.round`: JavaScript rounds half toward positive infinity. -/
def jsRound (q : ℚ) : ℤ := ⌊q + 1/2⌋

/-- `Math.floor`. -/
def jsFloor (q : ℚ) : ℤ := ⌊q⌋

/-- Truncation toward zero, the rounding used by JavaScript's `%`. -/
def jsTrunc (q : ℚ) : ℤ := if 0 ≤ q then ⌊q⌋ else ⌈q⌉

/-- JavaScript's remainder operator `a % b` on numbers (sign of the
dividend).  For `b = 0` JavaScript yields `NaN`; rational division by zero
in Lean yields `0`, so this total version returns `a` there — none of the
theorems depend on that corner. -/
def jsMod (a b : ℚ) : ℚ := a - b * (jsTrunc (a / b) : ℚ)

/- `VOXEL_SIZE = 0.25` (src/App.tsx line 6 and the generator module). -/
def VOXEL_SIZE : ℚ := 1/4

-- ===================================================================
-- Data model (src/unnamed/part_000: types.ts)
-- ===================================================================

/-- `GiftType` (types module): the fixed enumeration of collectible kinds. -/
inductive GiftType where
  | box | cane | ornament | stocking | gingerbread | star
deriving DecidableEq, Repr

/-- `Gift` (types module): id, 3D position, color, collected flag, type tag
and optional initial rotation. -/
structure Gift where
  id : ℤ
  position : ℚ × ℚ × ℚ
  color : String
  collected : Bool
  type : GiftType
  rotation : Option (ℚ × ℚ × ℚ)
deriving DecidableEq, Repr

/-- `Snowman` (types module): id, position, yaw, hit points, dead flag. -/
structure Snowman where
  id : ℤ
  position : ℚ × ℚ × ℚ
  rotation : ℚ
  hp : ℤ
  isDead : Bool
deriving DecidableEq, Repr

/-- `GameState` (types module): the authoritative session state. -/
structure GameState where
  started : Bool
  gifts : List Gift
  snowmen : List Snowman
  foundCount : ℕ
  gameOver : Bool
deriving DecidableEq, Repr

-- ===================================================================
-- Terrain height function (src/App.tsx lines 21-43, getTerrainVoxelY)
-- ===================================================================

/-- `getTerrainVoxelY` (App.tsx 21-43).  The source computes
`Math.sqrt((x-(-35))**2 + (z-35)**2) < 16` and
`Math.sqrt(x**2+z**2) < 5`; both square roots are used only in these
comparisons, translated to the exactly equivalent squared forms.
Constants: `0.05 = 1/20`, `0.1 = 1/10`, `0.2 = 1/5`. -/
def getTerrainVoxelY (M : JsMath) (logicalX logicalZ : ℚ) : ℤ :=
  if (logicalX - (-35))^2 + (logicalZ - 35)^2 < 16^2 then -2
  else if logicalX^2 + logicalZ^2 < 5^2 then 0
  else jsFloor (M.sin (logicalX * (1/20)) * M.cos (logicalZ * (1/20)) * 6 +
                M.sin (logicalX * (1/10) + logicalZ * (1/5)) * 2)

-- ===================================================================
-- Game session state machine (src/App.tsx lines 230-283)
-- ===================================================================

/-- `handleCollect` (App.tsx 230-246).  Faithful to the source, including
the guard `if (gift && gift.collected) return prev;`, which falls through
(and increments `foundCount`) when `find` returns no gift at all. -/
def handleCollect (id : ℤ) (prev : GameState) : GameState :=
  let gift := prev.gifts.find? (fun g => g.id == id)
  if (match gift with | some g => g.collected | none => false) then prev
  else
    let newGifts := prev.gifts.map (fun g =>
      if g.id == id then { g with collected := true } else g)
    let newCount := prev.foundCount + 1
    -- `totalGoals = 30`
    { prev with gifts := newGifts, foundCount := newCount,
                gameOver := decide (30 ≤ newCount) }

/-- The reward gift pushed by `handleSnowmanHit` when a snowman dies
(App.tsx 259-268): id `1000 + id`, position lifted by `+1.0` in y,
color `#ff00ff`, type gingerbread, zero rotation. -/
def rewardGift (id : ℤ) (pos : ℚ × ℚ × ℚ) : Gift :=
  { id := 1000 + id
    position := (pos.1, pos.2.1 + 1, pos.2.2)
    color := "#ff00ff"
    collected := false
    type := GiftType.gingerbread
    rotation := some (0, 0, 0) }

/-- `handleSnowmanHit` (App.tsx 248-279). -/
def handleSnowmanHit (id : ℤ) (prev : GameState) : GameState :=
  match prev.snowmen.find? (fun s => s.id == id) with
  | none => prev
  | some sm =>
    if sm.isDead then prev
    else
      let newHp := sm.hp - 1
      let isDead : Bool := decide (newHp ≤ 0)
      let newGifts :=
        if isDead then prev.gifts ++ [rewardGift id sm.position] else prev.gifts
      let newSnowmen := prev.snowmen.map (fun s =>
        if s.id == id then { s with hp := newHp, isDead := isDead } else s)
      { prev with snowmen := newSnowmen, gifts := newGifts }

/-- The interaction events the presentation layer can feed back into the
session state (pointer clicks on gifts and snowmen). -/
inductive Ev where
  | collect (id : ℤ)
  | hit (id : ℤ)

/-- Apply one interaction event. -/
def applyEv (s : GameState) (e : Ev) : GameState :=
  match e with
  | Ev.collect id => handleCollect id s
  | Ev.hit id => handleSnowmanHit id s

/-- Run a sequence of interaction events from a state. -/
def run (es : List Ev) (s : GameState) : GameState := es.foldl applyEv s

/-- The App's initial session state (App.tsx 213-228): not started,
given gift/snowman collections, zero found count, game not over. -/
def initialState (gifts : List Gift) (snowmen : List Snowman) : GameState :=
  { started := false, gifts := gifts, snowmen := snowmen,
    foundCount := 0, gameOver := false }

-- ===================================================================
-- Collectible placement (src/App.tsx lines 45-165, generateGifts)
-- ===================================================================

/-- The color pool of `getRandomColor` (App.tsx 9-12). -/
def colorStrings : List String :=
  ["#ff0000", "#00ff00", "#3333ff", "#ffd700", "#ff00ff", "#00ffff", "#ff6b00"]

/-- `getRandomColor`, applied to one `Math.random()` sample.  For a valid
sample the index `⌊r·7⌋` is always in range; the `getD` default is never
reached then. -/
def getRandomColor (r : ℚ) : String := colorStrings.getD (jsFloor (r * 7)).toNat ""

/-- The type pool of `getRandomType` (App.tsx 15-18). -/
def typePool : List GiftType :=
  [GiftType.box, GiftType.box, GiftType.cane, GiftType.ornament,
   GiftType.ornament, GiftType.stocking, GiftType.gingerbread, GiftType.star]

/-- `getRandomType`, applied to one `Math.random()` sample. -/
def getRandomType (r : ℚ) : GiftType := typePool.getD (jsFloor (r * 8)).toNat GiftType.box

/-- State threaded through `generateGifts`: the accumulated list, the
`idCounter` closure variable, and the position in the random stream. -/
structure GiftGen where
  gifts : List Gift
  idCounter : ℤ
  ri : ℕ
deriving Repr

/-- The `addGift` closure (App.tsx 49-58) for a call with an explicit
`type` argument: the default initializer `getRandomType()` is *not*
evaluated, so the draws consumed are color, then the three rotation
components. -/
def addGiftTyped (M : JsMath) (rng : ℕ → ℚ) (x y z : ℚ) (t : GiftType)
    (s : GiftGen) : GiftGen :=
  { gifts := s.gifts ++
      [{ id := s.idCounter
         position := (x, y, z)
         color := getRandomColor (rng s.ri)
         collected := false
         type := t
         rotation := some (rng (s.ri + 1) * (1/2), rng (s.ri + 2) * M.pi * 2,
                           rng (s.ri + 3) * (1/2)) }]
    idCounter := s.idCounter + 1
    ri := s.ri + 4 }

/-- The `addGift` closure for a call without a `type` argument: the default
parameter `getRandomType()` draws first, then color and rotation. -/
def addGiftRandomType (M : JsMath) (rng : ℕ → ℚ) (x y z : ℚ)
    (s : GiftGen) : GiftGen :=
  addGiftTyped M rng x y z (getRandomType (rng s.ri)) { s with ri := s.ri + 1 }

/-- The canopy-radius formula exactly as the gift generator writes it
(App.tsx 73): `maxRadius * (1 - heightPercent) + Math.sin(yVoxel*0.5)*1.5`
with `maxRadius = 32`; `yVoxel` is `heightPercent * treeHeight` at the call
site. -/
def appRadiusAtHeight (M : JsMath) (heightPercent yVoxel : ℚ) : ℚ :=
  32 * (1 - heightPercent) + M.sin (yVoxel * (1/2)) * (3/2)

/-- One iteration of the tree-placement loop (App.tsx 66-91):
`treeHeight = 100`, height fraction `0.15 + random * 0.7`, item placed at
the canopy radius plus `1.5`, type alternating ornament / star. -/
def treeStep (M : JsMath) (rng : ℕ → ℚ) (s : GiftGen) (i : ℕ) : GiftGen :=
  let heightPercent := 3/20 + rng s.ri * (7/10)
  let yVoxel := heightPercent * 100
  let radiusAtHeight := appRadiusAtHeight M heightPercent yVoxel
  let angle := rng (s.ri + 1) * M.pi * 2
  let r := radiusAtHeight + 3/2
  let xVoxel := M.cos angle * r
  let zVoxel := M.sin angle * r
  addGiftTyped M rng (xVoxel * VOXEL_SIZE) (yVoxel * VOXEL_SIZE)
    (zVoxel * VOXEL_SIZE)
    (if i % 2 = 0 then GiftType.ornament else GiftType.star)
    { s with ri := s.ri + 2 }

/-- Stage 1: twelve items on the tree surface (`treeCount = 12`). -/
def treeStage (M : JsMath) (rng : ℕ → ℚ) (s : GiftGen) : GiftGen :=
  (List.range 12).foldl (treeStep M rng) s

/-- The four house footprints used for interior placement (App.tsx 95-100). -/
structure HouseSpot where
  x : ℚ
  z : ℚ
  w : ℚ
  d : ℚ

def houseSpots : List HouseSpot :=
  [⟨50, 0, 12, 16⟩, ⟨30, -50, 10, 12⟩, ⟨-40, -40, 14, 10⟩, ⟨0, 60, 16, 12⟩]

/-- One interior item (App.tsx 104-114): random offset within the footprint
inset by 5, resting at `0 * VOXEL_SIZE + 0.3`, always a stocking. -/
def houseItem (M : JsMath) (rng : ℕ → ℚ) (h : HouseSpot) (s : GiftGen)
    (_k : ℕ) : GiftGen :=
  let rX := (rng s.ri - 1/2) * (h.w - 5)
  let rZ := (rng (s.ri + 1) - 1/2) * (h.d - 5)
  addGiftTyped M rng ((h.x + rX) * VOXEL_SIZE) (0 * VOXEL_SIZE + 3/10)
    ((h.z + rZ) * VOXEL_SIZE) GiftType.stocking { s with ri := s.ri + 2 }

/-- Per-house placement (App.tsx 102-115): `numInside = 1 + ⌊random · 2⌋`. -/
def houseStep (M : JsMath) (rng : ℕ → ℚ) (s : GiftGen) (h : HouseSpot) : GiftGen :=
  let numInside := 1 + jsFloor (rng s.ri * 2)
  (List.range numInside.toNat).foldl (houseItem M rng h) { s with ri := s.ri + 1 }

/-- Stage 2: items inside the four houses. -/
def houseStage (M : JsMath) (rng : ℕ → ℚ) (s : GiftGen) : GiftGen :=
  houseSpots.foldl (houseStep M rng) s

/-- One pond item (App.tsx 120-132): random angle and radius (< 12) around
the pond center `(-35, 35)`, resting at `-2 * VOXEL_SIZE + 0.3`, always a
candy cane. -/
def pondStep (M : JsMath) (rng : ℕ → ℚ) (s : GiftGen) (_i : ℕ) : GiftGen :=
  let angle := rng s.ri * M.pi * 2
  let r := rng (s.ri + 1) * 12
  let px := -35 + M.cos angle * r
  let pz := 35 + M.sin angle * r
  addGiftTyped M rng (px * VOXEL_SIZE) ((-2) * VOXEL_SIZE + 3/10)
    (pz * VOXEL_SIZE) GiftType.cane { s with ri := s.ri + 2 }

/-- Stage 3: four items on the pond ice (`pondCount = 4`). -/
def pondStage (M : JsMath) (rng : ℕ → ℚ) (s : GiftGen) : GiftGen :=
  (List.range 4).foldl (pondStep M rng) s

/-- One scatter placement attempt loop (App.tsx 139-162): up to 50
attempts; a sample in the square of half-side 80 is rejected while
`Math.sqrt(x²+z²) < 6` (translated to `x²+z² < 6²`); an accepted sample
immediately places a randomly typed item lifted `0.5` above the terrain
height. -/
def scatterOne (M : JsMath) (rng : ℕ → ℚ) : ℕ → GiftGen → GiftGen
  | 0, s => s
  | fuel + 1, s =>
    let xVoxel := (rng s.ri - 1/2) * 160
    let zVoxel := (rng (s.ri + 1) - 1/2) * 160
    if xVoxel^2 + zVoxel^2 < 6^2 then
      scatterOne M rng fuel { s with ri := s.ri + 2 }
    else
      let yVoxel := getTerrainVoxelY M xVoxel zVoxel
      let worldY := (yVoxel : ℚ) * VOXEL_SIZE + 1/2
      addGiftRandomType M rng (xVoxel * VOXEL_SIZE) worldY (zVoxel * VOXEL_SIZE)
        { s with ri := s.ri + 2 }

/-- Stage 4 (App.tsx 134-162): top the collection up to the internal
`targetInitial = 25`; note the `count` argument of `generateGifts` plays no
role here. -/
def scatterStage (M : JsMath) (rng : ℕ → ℚ) (s : GiftGen) : GiftGen :=
  let remaining := (max 0 (25 - (s.gifts.length : ℤ))).toNat
  (List.range remaining).foldl (fun t _ => scatterOne M rng 50 t) s

def giftGenInit : GiftGen := ⟨[], 0, 0⟩

/-- `generateGifts` (App.tsx 45-165).  The `count` parameter is declared by
the source but never read. -/
def generateGifts (M : JsMath) (rng : ℕ → ℚ) (_count : ℤ) : List Gift :=
  (scatterStage M rng (pondStage M rng (houseStage M rng
    (treeStage M rng giftGenInit)))).gifts

-- ===================================================================
-- Enemy placement (src/App.tsx lines 167-210, generateSnowmen)
-- ===================================================================

/-- The random-placement loop of `generateSnowmen` (App.tsx 181-189):
samples `(random - 0.5) * 2 * maxRange` per axis (`maxRange = 70`),
rejects while `Math.sqrt(x²+z²) < 8` (translated to `x²+z² < 8²`).  The
loop runs at most 20 iterations; crucially, `xVoxel`/`zVoxel` are assigned
*before* the rejection test, so when the attempt budget is exhausted the
*last rejected sample* remains in the variables.  Called with fuel 19
(1 + 19 = 20 iterations). -/
def snowmanSample (rng : ℕ → ℚ) : ℕ → ℕ → ℚ × ℚ × ℕ
  | ri, fuel =>
    let xVoxel := (rng ri - 1/2) * 2 * 70
    let zVoxel := (rng (ri + 1) - 1/2) * 2 * 70
    if xVoxel^2 + zVoxel^2 < 8^2 then
      match fuel with
      | 0 => (xVoxel, zVoxel, ri + 2)
      | fuel' + 1 => snowmanSample rng (ri + 2) fuel'
    else (xVoxel, zVoxel, ri + 2)

/-- The falsy-guard `if (!xVoxel) xVoxel = 10;` (App.tsx 192-193): a number
is falsy exactly when it is `0` (or `NaN`, which cannot arise here), so
only an exactly-zero coordinate is replaced by the fixed value 10. -/
def fix0 (v : ℚ) : ℚ := if v = 0 then 10 else v

/-- State threaded through `generateSnowmen`. -/
structure SnowGen where
  snowmen : List Snowman
  ri : ℕ

/-- One iteration of the `generateSnowmen` loop (App.tsx 171-208): fixed
scenic spots for `i = 0, 1`, sampled position otherwise; ground height via
`getTerrainVoxelY`; hp 3, not dead. -/
def snowmanStep (M : JsMath) (rng : ℕ → ℚ) (s : SnowGen) (i : ℕ) : SnowGen :=
  let t : ℚ × ℚ × ℕ :=
    if i = 0 then (15, 15, s.ri)
    else if i = 1 then (-20, -10, s.ri)
    else snowmanSample rng s.ri 19
  let xVoxel := fix0 t.1
  let zVoxel := fix0 t.2.1
  let ri' := t.2.2
  let yVoxel := getTerrainVoxelY M xVoxel zVoxel
  let worldY := (yVoxel : ℚ) * VOXEL_SIZE
  { snowmen := s.snowmen ++
      [{ id := (i : ℤ)
         position := (xVoxel * VOXEL_SIZE, worldY, zVoxel * VOXEL_SIZE)
         rotation := rng ri' * M.pi * 2
         hp := 3
         isDead := false }]
    ri := ri' + 1 }

/-- `generateSnowmen` (App.tsx 167-210). -/
def generateSnowmen (M : JsMath) (rng : ℕ → ℚ) (count : ℤ) : List Snowman :=
  ((List.range count.toNat).foldl (snowmanStep M rng) ⟨[], 0⟩).snowmen

/-- The App's initial state after the setup effect (App.tsx 222-228):
`generateGifts(30)` and `generateSnowmen(5)`.  The two generator calls read
disjoint segments of the single `Math.random()` stream; they are modelled
with two independent streams. -/
def appInitialState (M : JsMath) (rngG rngS : ℕ → ℚ) : GameState :=
  initialState (generateGifts M rngG 30) (generateSnowmen M rngS 5)

-- ===================================================================
-- State-machine lemmas
-- ===================================================================

/-- The session invariant relating `gameOver` to `foundCount`. -/
def GameOverInv (s : GameState) : Prop := (s.gameOver = true ↔ 30 ≤ s.foundCount)

-- ===================================================================
-- C1 -- C4
-- ===================================================================

/-- A concrete session state whose only gift has id 0 (so id 5 is unknown
to the collection), used to exercise the unknown-id path of `collect`. -/
def c1State : GameState :=
  { started := true
    gifts := [{ id := 0, position := (0, 0, 0), color := "#ff0000",
                collected := false, type := GiftType.box, rotation := none }]
    snowmen := []
    foundCount := 0
    gameOver := false }

/-- Invariant of the `generateGifts` accumulator: `idCounter` tracks the
list length, ids are the consecutive integers `0, 1, …`, and every gift
starts uncollected. -/
def GiftInv (s : GiftGen) : Prop :=
  s.idCounter = (s.gifts.length : ℤ) ∧
  s.gifts.map Gift.id = (List.range s.gifts.length).map (fun n => (n : ℤ)) ∧
  (∀ g ∈ s.gifts, g.collected = false) ∧
  ∀ g ∈ s.gifts, 0 ≤ g.id

-- ===================================================================
-- Length accounting for generateGifts (C6, C10)
-- ===================================================================

/-- The rejection predicate of one scatter sample: accepted when the
sampled point is at distance ≥ 6 from the origin. -/
def ScatterAccept (rng : ℕ → ℚ) (ri : ℕ) : Prop :=
  ¬(((rng ri - 1/2) * 160)^2 + ((rng (ri + 1) - 1/2) * 160)^2 < 6^2)

/-- Every scatter attempt finds an accepted sample within its 50-sample
budget, wherever it starts in the stream. -/
def ScatterSucceeds (rng : ℕ → ℚ) : Prop :=
  ∀ ri, ∃ k, k < 50 ∧ ScatterAccept rng (ri + 2 * k)

/-- Shape of a gift produced by the terrain-scatter stage: placed from a
sample at distance ≥ 6 from the origin, at the terrain height plus the
fixed lift. -/
def ScatterGiftShape (M : JsMath) (g : Gift) : Prop :=
  ∃ x z : ℚ, ¬(x^2 + z^2 < 6^2) ∧
    g.position = (x * VOXEL_SIZE, (getTerrainVoxelY M x z : ℚ) * VOXEL_SIZE + 1/2,
                  z * VOXEL_SIZE)

/-- The state after the three fixed-count placement stages (tree, houses,
pond), before the terrain scatter. -/
def prePlacement (M : JsMath) (rng : ℕ → ℚ) : GiftGen :=
  pondStage M rng (houseStage M rng (treeStage M rng giftGenInit))

-- ===================================================================
-- C9: tree-surface placement vs the world generator's canopy formula
-- ===================================================================

/-- The canopy radius exactly as the world generator writes it
(generator module, tree stage): `progress = y / treeHeight` and
`currentRadius = maxRadius * (1 - progress) + Math.sin(y * 0.5) * 1.5`
with `maxRadius = 32`, `treeHeight = 100`. -/
def worldCanopyRadius (M : JsMath) (y : ℚ) : ℚ :=
  let progress := y / 100
  32 * (1 - progress) + M.sin (y * (1/2)) * (3/2)

/-- The gift produced by the `i`-th iteration of the tree-placement loop,
with the random-stream indices it consumes (six draws per iteration,
starting at index `6 i`). -/
def treeGiftRecord (M : JsMath) (rng : ℕ → ℚ) (i : ℕ) : Gift :=
  let heightPercent := 3/20 + rng (6 * i) * (7/10)
  let yVoxel := heightPercent * 100
  let radiusAtHeight := appRadiusAtHeight M heightPercent yVoxel
  let angle := rng (6 * i + 1) * M.pi * 2
  let r := radiusAtHeight + 3/2
  { id := (i : ℤ)
    position := (M.cos angle * r * VOXEL_SIZE, yVoxel * VOXEL_SIZE,
                 M.sin angle * r * VOXEL_SIZE)
    color := getRandomColor (rng (6 * i + 2))
    collected := false
    type := if i % 2 = 0 then GiftType.ornament else GiftType.star
    rotation := some (rng (6 * i + 3) * (1/2), rng (6 * i + 4) * M.pi * 2,
                      rng (6 * i + 5) * (1/2)) }

-- ===================================================================
-- C7: generateSnowmen
-- ===================================================================

/-- One sample of the snowman placement loop is rejected (it lies within
the center-exclusion radius 8). -/
def SnowRejected (rng : ℕ → ℚ) (j : ℕ) : Prop :=
  ((rng j - 1/2) * 2 * 70)^2 + ((rng (j + 1) - 1/2) * 2 * 70)^2 < 8^2

/-- The snowman appended by iteration `i` of `generateSnowmen`, as a
function of the stream position `ri` at the start of the iteration. -/
def snowmanRecord (M : JsMath) (rng : ℕ → ℚ) (ri : ℕ) (i : ℕ) : Snowman :=
  let t : ℚ × ℚ × ℕ :=
    if i = 0 then (15, 15, ri)
    else if i = 1 then (-20, -10, ri)
    else snowmanSample rng ri 19
  let xVoxel := fix0 t.1
  let zVoxel := fix0 t.2.1
  let yVoxel := getTerrainVoxelY M xVoxel zVoxel
  { id := (i : ℤ)
    position := (xVoxel * VOXEL_SIZE, (yVoxel : ℚ) * VOXEL_SIZE, zVoxel * VOXEL_SIZE)
    rotation := rng t.2.2 * M.pi * 2
    hp := 3
    isDead := false }

/-- A stream whose every sample is `0.51`: each placement sample lands at
voxel `(1.4, 1.4)`, inside the exclusion radius, so the 20-attempt budget
is always exhausted. -/
def rngC : ℕ → ℚ := fun _ => 51/100

-- ===================================================================
-- World generator (generator module, `generateWorld`)
-- ===================================================================

/- The palette entries used by the generator (generator module, PALETTE). -/
def PALETTE_SNOW : ℕ := 0xffffff

def PALETTE_SNOW_SHADOW : ℕ := 0xe6e6fa

def PALETTE_DIRT : ℕ := 0x4a3c31

def PALETTE_STONE : ℕ := 0x666666

def PALETTE_PATH : ℕ := 0xcabba0

def PALETTE_ICE : ℕ := 0xa5f2f3

def PALETTE_WATER : ℕ := 0x0a1a2a

def PALETTE_BRICK_MAIN : ℕ := 0xb94e48

def PALETTE_BRICK_DARK : ℕ := 0x8f332d

def PALETTE_ROOF_SLATE : ℕ := 0x2d3436

def PALETTE_WOOD_TRUNK : ℕ := 0x2e1e14

def PALETTE_WOOD_PLANKS : ℕ := 0x5d4037

def PALETTE_LEAF_DARK : ℕ := 0x0f2e13

def PALETTE_LEAF_LIGHT : ℕ := 0x1f4523

def PALETTE_LEAF_SNOWY : ℕ := 0x5c7a60

def PALETTE_DECOR_RED : ℕ := 0xe60026

def PALETTE_DECOR_GOLD : ℕ := 0xffd700

def PALETTE_DECOR_SILVER : ℕ := 0xe0e0e0

def PALETTE_DECOR_ROYAL_BLUE : ℕ := 0x0047ab

def PALETTE_DECOR_PURPLE : ℕ := 0x800080

def PALETTE_DECOR_PINK : ℕ := 0xff1493

def PALETTE_LIGHT_STRING : ℕ := 0xffaa00

def PALETTE_LIGHT_WARM : ℕ := 0xffcf48

def PALETTE_STAR_CORE : ℕ := 0xffcc00

def PALETTE_STAR_GLOW : ℕ := 0xff9900

def PALETTE_LAMP_WARM : ℕ := 0xffaa44

def PALETTE_LAMP_POST : ℕ := 0x1a1a1a

/-- `VoxelData`: integer lattice coordinate plus color.  The generator's
`add` rounds before pushing, and the ice/water pushes use the (integer)
loop variables directly, so the stored coordinates are integers. -/
structure VoxelData where
  x : ℤ
  y : ℤ
  z : ℤ
  color : ℕ
deriving DecidableEq, Repr

/-- A derived lamp light position (world-scaled). -/
structure WPoint where
  x : ℚ
  y : ℚ
  z : ℚ
deriving DecidableEq, Repr

/-- A door descriptor (world-scaled hinge position and yaw). -/
structure WDoor where
  position : ℚ × ℚ × ℚ
  rotation : ℚ
deriving DecidableEq, Repr

/-- The mutable state of `generateWorld`: the six output collections, the
`occupied` set (modelled as a list of integer keys — the source's string
key `"x,y,z"` encodes exactly this triple), the path-height map (value
always 0, only `has` is consulted, so the keys suffice), and the position
in the random stream. -/
structure WGen where
  regular : List VoxelData
  glowing : List VoxelData
  interactiveIce : List VoxelData
  waterVoxels : List VoxelData
  lampCoords : List WPoint
  doors : List WDoor
  occupied : List (ℤ × ℤ × ℤ)
  pathHeightMap : List (ℤ × ℤ)
  ri : ℕ

/-- The generator's `add` (generator module): round the coordinate, drop
the emission when the cell is occupied, otherwise record the cell and push
to the glowing or regular set. -/
def addVox (x y z : ℚ) (color : ℕ) (isGlowing : Bool) (s : WGen) : WGen :=
  let vx := jsRound x
  let vy := jsRound y
  let vz := jsRound z
  if (vx, vy, vz) ∈ s.occupied then s
  else
    { s with
      occupied := (vx, vy, vz) :: s.occupied
      glowing := if isGlowing then s.glowing ++ [⟨vx, vy, vz, color⟩] else s.glowing
      regular := if isGlowing then s.regular else s.regular ++ [⟨vx, vy, vz, color⟩] }

/-- The integers from `lo` to `hi` inclusive (a `for` loop's index values). -/
def intRange (lo hi : ℤ) : List ℤ :=
  (List.range (hi + 1 - lo).toNat).map (fun (k : ℕ) => lo + (k : ℤ))

/-- The values of a loop `for (v = -wo; v <= wo; v += 0.5)`. -/
def halfStepRange (wo : ℚ) : List ℚ :=
  (List.range (⌊4 * wo⌋.toNat + 1)).map (fun (k : ℕ) => -wo + (k : ℚ) / 2)

/-- The values of the chimney loop `for (y = height/2; y < height+10; y++)`
(for odd heights these are half-integers). -/
def chimneyYs (height : ℤ) : List ℚ :=
  (List.range (⌈(height : ℚ) + 10 - (height : ℚ) / 2⌉.toNat)).map
    (fun (k : ℕ) => (height : ℚ) / 2 + (k : ℚ))

/-- The values of the trunk loop `for (v = -trunkR; v <= trunkR; v++)`. -/
def trunkXs (trunkR : ℚ) : List ℚ :=
  (List.range (⌊2 * trunkR⌋.toNat + 1)).map (fun (k : ℕ) => -trunkR + (k : ℚ))

/-- `buildLamp` (generator module): a 9-voxel pole, two arm voxels, four
fixture voxels, one emissive bulb, and a recorded light position. -/
def buildLamp (x y z : ℚ) (s : WGen) : WGen :=
  let s1 := (List.range 9).foldl
    (fun t (h : ℕ) => addVox x (y + (h : ℚ)) z PALETTE_LAMP_POST false t) s
  let armY := y + 9 - 1
  let s2 := addVox x armY z PALETTE_LAMP_POST false s1
  let s3 := addVox x (armY + 1/2) z PALETTE_LAMP_POST false s2
  let lightY := armY - 1/2
  let s4 := addVox x lightY (z + 3/5) PALETTE_LAMP_POST false s3
  let s5 := addVox x lightY (z - 3/5) PALETTE_LAMP_POST false s4
  let s6 := addVox (x + 3/5) lightY z PALETTE_LAMP_POST false s5
  let s7 := addVox (x - 3/5) lightY z PALETTE_LAMP_POST false s6
  let s8 := addVox x lightY z PALETTE_LAMP_WARM true s7
  { s8 with lampCoords := s8.lampCoords ++
      [⟨x * VOXEL_SIZE, (lightY - 1) * VOXEL_SIZE, z * VOXEL_SIZE⟩] }

/-- `createPath` (generator module): record path cells along the segment
(with perpendicular half-step padding), then, for segments longer than 10,
place `⌊dist/25⌋ - 1` lamps on alternating sides, each with a small random
x jitter.  Here the value of `Math.sqrt` is consumed (step counts), so the
abstract `M.sqrt` is used; `t = i/steps` is rational division (total in
Lean; the `steps = 0` corner is unreachable for a square-root-like `M`). -/
def createPath (M : JsMath) (rng : ℕ → ℚ) (x1 z1 x2 z2 widthOverride : ℚ)
    (s : WGen) : WGen :=
  let dist := M.sqrt ((x2 - x1)^2 + (z2 - z1)^2)
  let steps := ⌈dist * 2⌉
  let s1 := (intRange 0 steps).foldl (fun t (i : ℤ) =>
    let tt := (i : ℚ) / (steps : ℚ)
    let cx := x1 + (x2 - x1) * tt
    let cz := z1 + (z2 - z1) * tt
    (halfStepRange widthOverride).foldl (fun u ox =>
      (halfStepRange widthOverride).foldl (fun v oz =>
        { v with pathHeightMap := (jsRound (cx + ox), jsRound (cz + oz)) ::
            v.pathHeightMap }) u) t) s
  if 10 < dist then
    let numLamps := ⌊dist / 25⌋
    (intRange 1 (numLamps - 1)).foldl (fun t (i : ℤ) =>
      let tt := (i : ℚ) / (numLamps : ℚ)
      let lx := x1 + (x2 - x1) * tt
      let lz := z1 + (z2 - z1) * tt
      let side : ℚ := if i % 2 = 0 then 1 else -1
      let lampX := jsRound (lx + rng t.ri * (1/2))
      let lampZ := jsRound (lz + side * (5/2))
      buildLamp (lampX : ℚ) 0 (lampZ : ℚ) { t with ri := t.ri + 1 }) s1
  else s1

/-- `buildHouse` (generator module): wall shell with brick texture, door
gap with one recorded door, windows, floor, tapered roof, chimney with
probabilistic smoke.  `doorRecorded` is threaded as the Bool component.
`groundY = 0`.  All four buildings have even width and depth, so the wall
loops run over integers. -/
def buildHouse (M : JsMath) (rng : ℕ → ℚ) (cx cz width depth height : ℤ)
    (rotation : ℕ) (s : WGen) : WGen :=
  let rotateQ : ℚ → ℚ → ℚ × ℚ := fun x z =>
    if rotation = 0 then ((cx : ℚ) + x, (cz : ℚ) + z)
    else ((cx : ℚ) - z, (cz : ℚ) + x)
  let core :=
    (intRange 0 (height + 8 - 1)).foldl (fun (p : WGen × Bool) (y : ℤ) =>
      (intRange (-(width / 2)) (width / 2)).foldl (fun (p : WGen × Bool) (x : ℤ) =>
        (intRange (-(depth / 2)) (depth / 2)).foldl (fun (p : WGen × Bool) (z : ℤ) =>
          let pos := rotateQ (x : ℚ) (z : ℚ)
          if y < height then
            if (width : ℚ) / 2 - 1 ≤ |(x : ℚ)| ∨ (depth : ℚ) / 2 - 1 ≤ |(z : ℚ)| then
              let isFront := |(z : ℚ) - (depth : ℚ) / 2| < 3/2
              let isDoorX := -2 ≤ x ∧ x ≤ 1
              let isDoorY := y < 7
              if isFront ∧ isDoorX ∧ isDoorY then
                if p.2 = false ∧ x = -2 ∧ y = 0 then
                  let hingePos := rotateQ (-5/2) ((depth : ℚ) / 2)
                  let doorRot : ℚ := if rotation = 0 then 0 else -(M.pi / 2)
                  ({ p.1 with doors := p.1.doors ++
                      [⟨(hingePos.1 * VOXEL_SIZE, (0 : ℚ) * VOXEL_SIZE,
                         hingePos.2 * VOXEL_SIZE), doorRot⟩] }, true)
                else p
              else
                let cheap := |x * 3 + y * 2 + z| % 7 < 2
                let isDark := cheap ∨ 4/5 < rng p.1.ri
                let st := if cheap then p.1 else { p.1 with ri := p.1.ri + 1 }
                let col := if isDark then PALETTE_BRICK_DARK else PALETTE_BRICK_MAIN
                let isWindowH := (3 < y ∧ y < 7) ∨ (height - 6 < y ∧ y < height - 2)
                let isWindowX := |x| < 2 ∨
                  (10 < width ∧ |((|x| : ℤ) : ℚ) - (width : ℚ) / 4| < 2)
                if isFront ∧ isWindowH ∧ isWindowX then
                  (addVox pos.1 ((0 : ℚ) + (y : ℚ)) pos.2 PALETTE_LIGHT_WARM true st, p.2)
                else (addVox pos.1 ((0 : ℚ) + (y : ℚ)) pos.2 col false st, p.2)
            else if y = 0 then
              (addVox pos.1 ((0 : ℚ) + (y : ℚ)) pos.2 PALETTE_WOOD_PLANKS false p.1, p.2)
            else p
          else
            let roofY := y - height
            let roofScale := 1 - (roofY : ℚ) / 8
            if |(x : ℚ)| ≤ ((width : ℚ) / 2 + 1) * roofScale ∧
                |(z : ℚ)| ≤ (depth : ℚ) / 2 + 1 then
              let cheapSnow := 6 < roofY
              let isSnowTop := cheapSnow ∨ 7/10 < rng p.1.ri
              let st := if cheapSnow then p.1 else { p.1 with ri := p.1.ri + 1 }
              (addVox pos.1 ((0 : ℚ) + (y : ℚ)) pos.2
                (if isSnowTop then PALETTE_SNOW else PALETTE_ROOF_SLATE) false st, p.2)
            else p) p) p) (s, false)
  let chimneyX : ℚ := (width : ℚ) / 3
  let chimneyZ : ℚ := 0
  (chimneyYs height).foldl (fun t y =>
    (intRange (-1) 1).foldl (fun t (cxv : ℤ) =>
      (intRange (-1) 1).foldl (fun t (czv : ℤ) =>
        let pos := rotateQ (chimneyX + (cxv : ℚ)) (chimneyZ + (czv : ℚ))
        let isSmoke := (height : ℚ) + 8 < y
        if isSmoke then
          let r := rng t.ri
          let t1 := { t with ri := t.ri + 1 }
          if 1/2 < r ∧ cxv = 0 ∧ czv = 0 then
            let r2 := rng t1.ri
            let t2 := { t1 with ri := t1.ri + 1 }
            addVox pos.1 ((0 : ℚ) + y + r2 * 2) pos.2 0xaaaaaa false t2
          else t1
        else addVox pos.1 ((0 : ℚ) + y) pos.2 PALETTE_BRICK_DARK false t) t) t)
    core.1

/-- The pond-interior condition of the terrain loop, as a predicate of the
column: `distToPond < pondRadius - 2` with `pondRadius = 18`. -/
def iceCond (M : JsMath) (x z : ℤ) : Prop :=
  M.sqrt (((x : ℚ) - (-35))^2 + ((z : ℚ) - 35)^2) < 18 - 2

/-- One column of the terrain stage (generator module, terrain loop body
for a fixed `(x, z)`):  pond interior emits one interactive-ice voxel at
y = −2, an air gap down to the water line, one water voxel at y = −6 and a
lakebed below; other columns fill crust and bottom bands between the
surface and the computed bottom. `pondIceY = -2`, `pondWaterY = -6`,
`ISLAND_DEPTH_CENTER = 45`, `WORLD_RADIUS = 90`. -/
def colStep (M : JsMath) (rng : ℕ → ℚ) (x z surfaceY bottomY : ℤ)
    (surfaceColor : ℕ) (isIceSurface isPath : Bool) (t : WGen) (y : ℤ) : WGen :=
  if isIceSurface then
    if y = -2 then
      { t with interactiveIce := t.interactiveIce ++ [⟨x, y, z, PALETTE_ICE⟩] }
    else if y < -2 ∧ -6 < y then t
    else if y = -6 then
      { t with waterVoxels := t.waterVoxels ++ [⟨x, y, z, PALETTE_WATER⟩] }
    else if y < -6 then
      (if y = -6 - 1 then addVox (x : ℚ) (y : ℚ) (z : ℚ) PALETTE_DIRT false t
       else if y - bottomY < 2 then
         addVox (x : ℚ) (y : ℚ) (z : ℚ) PALETTE_STONE false t
       else t)
    else t
  else
    let depthFromSurface := surfaceY - y
    let heightFromBottom := y - bottomY
    let isCrust := depthFromSurface ≤ 7
    let isBottom := heightFromBottom ≤ 2
    if isCrust ∨ isBottom then
      if y = surfaceY then addVox (x : ℚ) (y : ℚ) (z : ℚ) surfaceColor false t
      else if depthFromSurface ≤ 2 ∧ isPath = false then
        addVox (x : ℚ) (y : ℚ) (z : ℚ) PALETTE_DIRT false t
      else
        let r := rng t.ri
        let t' := { t with ri := t.ri + 1 }
        addVox (x : ℚ) (y : ℚ) (z : ℚ)
          (if 17/20 < r then PALETTE_DIRT else PALETTE_STONE) false t'
    else t

/-- One column of the terrain stage (generator module, terrain loop body
for a fixed `(x, z)`):  pond interior emits one interactive-ice voxel at
y = −2, an air gap down to the water line, one water voxel at y = −6 and a
lakebed below; other columns fill crust and bottom bands between the
surface and the computed bottom. `pondIceY = -2`, `pondWaterY = -6`,
`ISLAND_DEPTH_CENTER = 45`, `WORLD_RADIUS = 90`. -/
def processColumn (M : JsMath) (rng : ℕ → ℚ) (s : WGen) (col : ℤ × ℤ) : WGen :=
  let x := col.1
  let z := col.2
  let distSq : ℚ := (x : ℚ) * (x : ℚ) + (z : ℚ) * (z : ℚ)
  let dist := M.sqrt distSq
  if 90 < dist then s
  else
    let isPath := decide ((x, z) ∈ s.pathHeightMap)
    let distToPond := M.sqrt (((x : ℚ) - (-35))^2 + ((z : ℚ) - 35)^2)
    let isPond := distToPond < 18
    let base : (ℤ × ℕ × Bool) × WGen :=
      if isPond then
        if distToPond < 18 - 2 then ((-2, PALETTE_SNOW, true), s)
        else ((-1, PALETTE_DIRT, false), s)
      else if isPath then ((0, PALETTE_PATH, false), s)
      else
        let noise := M.sin ((x : ℚ) * (1/20)) * M.cos ((z : ℚ) * (1/20)) * 6 +
          M.sin ((x : ℚ) * (1/10) + (z : ℚ) * (1/5)) * 2
        let sy := ⌊noise⌋
        let r := rng s.ri
        let s' := { s with ri := s.ri + 1 }
        if 7/10 < r ∧ 2 < sy then ((sy, PALETTE_SNOW_SHADOW, false), s')
        else ((sy, PALETTE_SNOW, false), s')
    let surfaceY := base.1.1
    let surfaceColor := base.1.2.1
    let isIceSurface := base.1.2.2
    let d := dist / 90
    let bottomNoise := M.sin ((x : ℚ) * (3/20)) * M.cos ((z : ℚ) * (3/20)) * 4 +
      M.cos ((x : ℚ) * (3/10)) * 2
    let structuralDepth := 45 * (1 - M.pow d (9/5))
    let totalDepth := max 5 (structuralDepth + bottomNoise)
    let bottomY := ⌊(surfaceY : ℚ) - totalDepth⌋
    (intRange bottomY surfaceY).foldl
      (colStep M rng x z surfaceY bottomY surfaceColor isIceSurface isPath) base.2

/-- The column enumeration of the terrain loop (x outer, z inner, both
from −90 to 90). -/
def worldCols : List (ℤ × ℤ) :=
  (intRange (-90) 90).bind (fun x => (intRange (-90) 90).map (fun z => (x, z)))

def terrainStage (M : JsMath) (rng : ℕ → ℚ) (s : WGen) : WGen :=
  worldCols.foldl (processColumn M rng) s

/-- The tapering trunk (generator module): `treeBaseY = 0`, 25 levels,
radius `max(2, 4 - y*0.05)`. -/
def trunkStage (s : WGen) : WGen :=
  (intRange 0 24).foldl (fun t (y : ℤ) =>
    let trunkR := max 2 (4 - (y : ℚ) * (1/20))
    (trunkXs trunkR).foldl (fun t x =>
      (trunkXs trunkR).foldl (fun t z =>
        if x * x + z * z ≤ trunkR * trunkR then
          addVox x ((0 : ℚ) + (y : ℚ)) z PALETTE_WOOD_TRUNK false t
        else t) t) t) s

/-- The conifer canopy (generator module): y from 8 to 99, radius
`worldCanopyRadius`, surface shell promoted to light strings or ornament
draws, probabilistic interior fill. -/
def canopyStage (M : JsMath) (rng : ℕ → ℚ) (s : WGen) : WGen :=
  (intRange 8 99).foldl (fun t (y : ℤ) =>
    let currentRadius := worldCanopyRadius M (y : ℚ)
    let bound := ⌈currentRadius⌉
    (intRange (-bound) bound).foldl (fun t (x : ℤ) =>
      (intRange (-bound) bound).foldl (fun t (z : ℤ) =>
        let distSq : ℚ := (x : ℚ) * (x : ℚ) + (z : ℚ) * (z : ℚ)
        if distSq ≤ currentRadius * currentRadius then
          let isSurface := (currentRadius - 3) * (currentRadius - 3) < distSq
          let gate : Bool × WGen :=
            if isSurface then (true, t)
            else (decide (17/20 < rng t.ri), { t with ri := t.ri + 1 })
          if gate.1 then
            let t1 := gate.2
            let r2 := rng t1.ri
            let t2 := { t1 with ri := t1.ri + 1 }
            let col0 := if 7/10 < r2 then PALETTE_LEAF_LIGHT else PALETTE_LEAF_DARK
            let col1 := if 12 < y % 15 then PALETTE_LEAF_SNOWY else col0
            if isSurface then
              let angle := M.atan2 (z : ℚ) (x : ℚ)
              let spiral1 := jsMod (angle * 5 + (y : ℚ) * (1/4)) (M.pi * 2)
              let spiral2 := jsMod (angle * 5 + (y : ℚ) * (1/4) + M.pi) (M.pi * 2)
              if |spiral1| < 3/10 ∨ |spiral2| < 3/10 then
                addVox (x : ℚ) ((0 : ℚ) + (y : ℚ)) (z : ℚ) PALETTE_LIGHT_STRING true t2
              else
                let r3 := rng t2.ri
                let t3 := { t2 with ri := t2.ri + 1 }
                if 93/100 < r3 then
                  let r4 := rng t3.ri
                  let t4 := { t3 with ri := t3.ri + 1 }
                  let dcol := if r4 < 3/10 then PALETTE_DECOR_RED
                    else if r4 < 9/20 then PALETTE_DECOR_GOLD
                    else if r4 < 3/5 then PALETTE_DECOR_ROYAL_BLUE
                    else if r4 < 3/4 then PALETTE_DECOR_PURPLE
                    else if r4 < 17/20 then PALETTE_DECOR_PINK
                    else PALETTE_DECOR_SILVER
                  addVox (x : ℚ) ((0 : ℚ) + (y : ℚ)) (z : ℚ) dcol true t4
                else addVox (x : ℚ) ((0 : ℚ) + (y : ℚ)) (z : ℚ) col1 false t3
            else addVox (x : ℚ) ((0 : ℚ) + (y : ℚ)) (z : ℚ) col1 false t2
          else gate.2
        else t) t) t) s

def starDirections : List (ℤ × ℤ × ℤ) :=
  [(1, 0, 0), (-1, 0, 0), (0, 1, 0), (0, -1, 0), (0, 0, 1), (0, 0, -1),
   (1, 1, 0), (-1, 1, 0), (0, 1, 1), (0, 1, -1)]

/-- The tree-top star (generator module): a diamond core at
`starY = treeBaseY + treeHeight + 1 = 101` plus glow rays along ten fixed
directions. -/
def starStage (s : WGen) : WGen :=
  let starY : ℤ := 0 + 100 + 1
  let s1 := (intRange (-2) 2).foldl (fun t (x : ℤ) =>
    (intRange (-2) 2).foldl (fun t (y : ℤ) =>
      (intRange (-2) 2).foldl (fun t (z : ℤ) =>
        if |x| + |y| + |z| ≤ 3 then
          addVox (x : ℚ) ((starY + y : ℤ) : ℚ) (z : ℚ) PALETTE_STAR_CORE true t
        else t) t) t) s
  starDirections.foldl (fun t dir =>
    let len : ℤ := if 1 < |dir.1| + |dir.2.1| + |dir.2.2| then 5 else 9
    (intRange 2 (len - 1)).foldl (fun t (i : ℤ) =>
      addVox ((dir.1 * i : ℤ) : ℚ) ((starY + dir.2.1 * i : ℤ) : ℚ)
        ((dir.2.2 * i : ℤ) : ℚ) PALETTE_STAR_GLOW true t) t) s1

/-- The four building footprints (generator module). -/
structure WBuilding where
  x : ℤ
  z : ℤ
  w : ℤ
  d : ℤ
  h : ℤ
  r : ℕ

def worldBuildings : List WBuilding :=
  [⟨50, 0, 12, 16, 12, 1⟩, ⟨30, -50, 10, 12, 10, 0⟩,
   ⟨-40, -40, 14, 10, 14, 1⟩, ⟨0, 60, 16, 12, 11, 1⟩]

/-- The path network (generator module): a spur from the center to each
building plus a short door path, then the fixed ring
center–pond–buildings (the ring endpoints are the building coordinates
spelled as literals). -/
def pathsStage (M : JsMath) (rng : ℕ → ℚ) (s : WGen) : WGen :=
  let s1 := worldBuildings.foldl (fun t b =>
    let t1 := createPath M rng 0 0 (b.x : ℚ) (b.z : ℚ) (3/2) t
    if b.r = 0 then
      let doorZ := (b.z : ℚ) + (b.d : ℚ) / 2
      createPath M rng (b.x : ℚ) doorZ (b.x : ℚ) (doorZ + 4) 3 t1
    else
      let doorX := (b.x : ℚ) - (b.d : ℚ) / 2
      createPath M rng doorX (b.z : ℚ) (doorX - 4) (b.z : ℚ) 3 t1) s
  let s2 := createPath M rng 0 0 (-35) 35 (3/2) s1
  let s3 := createPath M rng 50 0 30 (-50) (3/2) s2
  let s4 := createPath M rng 30 (-50) (-40) (-40) (3/2) s3
  let s5 := createPath M rng (-40) (-40) (-35) 35 (3/2) s4
  let s6 := createPath M rng (-35) 35 0 60 (3/2) s5
  createPath M rng 0 60 50 0 (3/2) s6

def housesStage (M : JsMath) (rng : ℕ → ℚ) (s : WGen) : WGen :=
  worldBuildings.foldl (fun t b => buildHouse M rng b.x b.z b.w b.d b.h b.r t) s

def worldInit : WGen := ⟨[], [], [], [], [], [], [], [], 0⟩

/-- `generateWorld` (generator module): paths and lamps, houses, terrain,
trunk, canopy, star — in source order. -/
def generateWorld (M : JsMath) (rng : ℕ → ℚ) : WGen :=
  starStage (canopyStage M rng (trunkStage (terrainStage M rng
    (housesStage M rng (pathsStage M rng worldInit)))))

-- ===================================================================
-- C8 invariants
-- ===================================================================

def coordOf (v : VoxelData) : ℤ × ℤ × ℤ := (v.x, v.y, v.z)

/-- Every cell the occupancy-checked `add` ever writes satisfies this:
non-negative height, or not a pond-interior column, or strictly below the
water line.  Interactive-ice cells (y = −2, pond interior) and water cells
(y = −6, pond interior) violate it, which is what separates them from the
`add`-emitted voxels. -/
def PCoord (M : JsMath) (c : ℤ × ℤ × ℤ) : Prop :=
  0 ≤ c.2.1 ∨ ¬ iceCond M c.1 c.2.2 ∨ c.2.1 ≤ -7

/-- The generator invariant: `add`-emitted voxels have pairwise-distinct
coordinates all registered in the occupancy set; every occupied cell
satisfies `PCoord`; ice and water voxels sit at y = −2 / y = −6 in
pond-interior columns, one per column. -/
def WInv (M : JsMath) (s : WGen) : Prop :=
  ((s.regular ++ s.glowing).map coordOf).Nodup ∧
  (∀ c ∈ (s.regular ++ s.glowing).map coordOf, c ∈ s.occupied) ∧
  (∀ c ∈ s.occupied, PCoord M c) ∧
  (∀ v ∈ s.interactiveIce, v.y = -2 ∧ iceCond M v.x v.z) ∧
  (∀ v ∈ s.waterVoxels, v.y = -6 ∧ iceCond M v.x v.z) ∧
  (s.interactiveIce.map (fun v => (v.x, v.z))).Nodup ∧
  (s.waterVoxels.map (fun v => (v.x, v.z))).Nodup

def IW (s : WGen) : Prop := s.interactiveIce = [] ∧ s.waterVoxels = []

def combinedCoords (s : WGen) : List (ℤ × ℤ × ℤ) :=
  (s.regular ++ s.glowing).map coordOf ++
  s.interactiveIce.map coordOf ++ s.waterVoxels.map coordOf

theorem validRng_rng0 : ValidRng rng0 :=
  fun _ => ⟨by norm_num [rng0], by norm_num [rng0]⟩

theorem jsRound_intCast (k : ℤ) : jsRound (k : ℚ) = k := by
  unfold jsRound
  rw [add_comm, Int.floor_add_int]
  norm_num

theorem handleCollect_gameOverInv (id : ℤ) (s : GameState) (h : GameOverInv s) :
    GameOverInv (handleCollect id s) := by
  unfold GameOverInv
  simp only [handleCollect]
  split
  · exact h
  · simp

theorem handleSnowmanHit_gameOver (id : ℤ) (s : GameState) :
    (handleSnowmanHit id s).gameOver = s.gameOver := by
  unfold handleSnowmanHit
  split
  · rfl
  · split
    · rfl
    · rfl

theorem handleSnowmanHit_foundCount (id : ℤ) (s : GameState) :
    (handleSnowmanHit id s).foundCount = s.foundCount := by
  unfold handleSnowmanHit
  split
  · rfl
  · split
    · rfl
    · rfl

theorem applyEv_gameOverInv (s : GameState) (e : Ev) (h : GameOverInv s) :
    GameOverInv (applyEv s e) := by
  cases e with
  | collect id => exact handleCollect_gameOverInv id s h
  | hit id =>
      unfold GameOverInv
      simp only [applyEv]
      rw [handleSnowmanHit_gameOver, handleSnowmanHit_foundCount]
      exact h

theorem run_gameOverInv (es : List Ev) (s : GameState) (h : GameOverInv s) :
    GameOverInv (run es s) := by
  induction es generalizing s with
  | nil => exact h
  | cons e es ih => exact ih (applyEv s e) (applyEv_gameOverInv s e h)

theorem handleCollect_foundCount_mono (id : ℤ) (s : GameState) :
    s.foundCount ≤ (handleCollect id s).foundCount := by
  simp only [handleCollect]
  split
  · exact le_refl _
  · exact Nat.le_succ _

/-- C1 (code bug): the spec demands that `collect(5)` on a collection
without an id-5 gift leave the state unchanged, but the guard
`if (gift && gift.collected)` in `handleCollect` falls through when the
gift is absent: `foundCount` is incremented although no gift gets marked
collected, so the transition is *not* a no-op on an unknown id. -/
theorem collect_unknown_id_not_noop :
    (handleCollect 5 c1State).foundCount = 1 ∧
    c1State.foundCount = 0 ∧
    (∀ g ∈ (handleCollect 5 c1State).gifts, g.collected = false) ∧
    handleCollect 5 c1State ≠ c1State := by decide

/-- C2: `hit(id)` is a no-op on an unknown id or a dead snowman; otherwise
it decrements that snowman's hit points, and exactly when the new value
reaches ≤ 0 it marks it dead and appends exactly one reward gift with id
`1000 + id`, uncollected, at the snowman's position lifted by the fixed
offset, of the fixed reward type.  On a fresh snowman with hp 3, three
sequential hits give hp 2, 1, 0 with death and a single reward only at the
third, and a fourth hit changes nothing. -/
theorem snowmanHit_spec :
    (∀ (id : ℤ) (s : GameState),
        s.snowmen.find? (fun t => t.id == id) = none →
        handleSnowmanHit id s = s) ∧
    (∀ (id : ℤ) (s : GameState) (sm : Snowman),
        s.snowmen.find? (fun t => t.id == id) = some sm → sm.isDead = true →
        handleSnowmanHit id s = s) ∧
    (∀ (id : ℤ) (s : GameState) (sm : Snowman),
        s.snowmen.find? (fun t => t.id == id) = some sm → sm.isDead = false →
        (handleSnowmanHit id s).gifts =
          s.gifts ++ (if sm.hp - 1 ≤ 0 then [rewardGift id sm.position] else []) ∧
        (handleSnowmanHit id s).snowmen =
          s.snowmen.map (fun t => if t.id == id then
            { t with hp := sm.hp - 1, isDead := decide (sm.hp - 1 ≤ 0) } else t) ∧
        (handleSnowmanHit id s).foundCount = s.foundCount ∧
        (handleSnowmanHit id s).gameOver = s.gameOver ∧
        (handleSnowmanHit id s).started = s.started) ∧
    (∀ (id : ℤ) (g : List Gift) (sn : Snowman) (st go : Bool) (fc : ℕ),
        sn.id = id → sn.hp = 3 → sn.isDead = false →
        (let s0 : GameState := ⟨st, g, [sn], fc, go⟩
         let s1 := handleSnowmanHit id s0
         let s2 := handleSnowmanHit id s1
         let s3 := handleSnowmanHit id s2
         s1.snowmen = [{ sn with hp := 2, isDead := false }] ∧ s1.gifts = g ∧
         s2.snowmen = [{ sn with hp := 1, isDead := false }] ∧ s2.gifts = g ∧
         s3.snowmen = [{ sn with hp := 0, isDead := true }] ∧
         s3.gifts = g ++ [rewardGift id sn.position] ∧
         handleSnowmanHit id s3 = s3)) := by
  refine ⟨?_, ?_, ?_, ?_⟩
  · intro id s h
    unfold handleSnowmanHit
    rw [h]
  · intro id s sm h hd
    unfold handleSnowmanHit
    rw [h]
    simp [hd]
  · intro id s sm h hd
    unfold handleSnowmanHit
    rw [h]
    simp only [hd]
    by_cases hle : sm.hp - 1 ≤ 0 <;> simp [hle]
  · intro id g sn st go fc hid hhp hdead
    obtain ⟨sid, spos, srot, shp, sdead⟩ := sn
    simp only at hid hhp hdead
    subst hid hhp hdead
    simp [handleSnowmanHit, rewardGift, List.find?]

/-- A fold preserves any invariant its step function preserves. -/
theorem foldl_preserves {α β : Type _} (P : α → Prop) (f : α → β → α)
    (h : ∀ s x, P s → P (f s x)) :
    ∀ (l : List β) (s : α), P s → P (l.foldl f s) := by
  intro l
  induction l with
  | nil => intro s hs; exact hs
  | cons x xs ih => intro s hs; exact ih (f s x) (h s x hs)

theorem giftInv_init : GiftInv giftGenInit := by
  refine ⟨rfl, rfl, ?_, ?_⟩ <;>
  · intro g hg
    simp [giftGenInit] at hg

/-- A map that fixes every element of a list is the identity on it. -/
theorem list_map_eq_self {α : Type _} (l : List α) (f : α → α)
    (h : ∀ a ∈ l, f a = a) : l.map f = l := by
  induction l with
  | nil => rfl
  | cons x xs ih =>
      simp only [List.map_cons]
      rw [h x (by simp), ih (fun a ha => h a (by simp [ha]))]

theorem giftInv_ri (s : GiftGen) (ri : ℕ) (h : GiftInv s) :
    GiftInv { s with ri := ri } := h

theorem addGiftTyped_giftInv (M : JsMath) (rng : ℕ → ℚ) (x y z : ℚ)
    (t : GiftType) (s : GiftGen) (h : GiftInv s) :
    GiftInv (addGiftTyped M rng x y z t s) := by
  obtain ⟨h1, h2⟩ := h
  refine ⟨?_, ?_, ?_⟩
  · simp [addGiftTyped, h1]
  · simp only [addGiftTyped, List.map_append, List.length_append, List.map_cons,
      List.map_nil, List.length_cons, List.length_nil]
    rw [h2.1, h1]
    rw [List.range_succ]
    simp
  · constructor
    · intro g hg
      simp only [addGiftTyped, List.mem_append, List.mem_singleton] at hg
      rcases hg with hg | hg
      · exact h2.2.1 g hg
      · rw [hg]
    · intro g hg
      simp only [addGiftTyped, List.mem_append, List.mem_singleton] at hg
      rcases hg with hg | hg
      · exact h2.2.2 g hg
      · rw [hg]
        simp only [h1]
        exact Int.natCast_nonneg _

theorem addGiftRandomType_giftInv (M : JsMath) (rng : ℕ → ℚ) (x y z : ℚ)
    (s : GiftGen) (h : GiftInv s) :
    GiftInv (addGiftRandomType M rng x y z s) :=
  addGiftTyped_giftInv M rng x y z _ _ (giftInv_ri s _ h)

theorem scatterOne_giftInv (M : JsMath) (rng : ℕ → ℚ) :
    ∀ (fuel : ℕ) (s : GiftGen), GiftInv s → GiftInv (scatterOne M rng fuel s) := by
  intro fuel
  induction fuel with
  | zero => intro s h; exact h
  | succ f ih =>
      intro s h
      rw [scatterOne]
      split
      · exact ih _ (giftInv_ri s _ h)
      · exact addGiftRandomType_giftInv M rng _ _ _ _ (giftInv_ri s _ h)

theorem generateGifts_giftInv (M : JsMath) (rng : ℕ → ℚ) :
    GiftInv (scatterStage M rng (pondStage M rng (houseStage M rng
      (treeStage M rng giftGenInit)))) := by
  have htree : GiftInv (treeStage M rng giftGenInit) := by
    unfold treeStage
    refine foldl_preserves _ _ ?_ _ _ giftInv_init
    intro s i h
    exact addGiftTyped_giftInv M rng _ _ _ _ _ (giftInv_ri s _ h)
  have thouse : GiftInv (houseStage M rng (treeStage M rng giftGenInit)) := by
    unfold houseStage
    refine foldl_preserves _ _ ?_ _ _ htree
    intro s hsp h
    unfold houseStep
    refine foldl_preserves _ _ ?_ _ _ (giftInv_ri s _ h)
    intro s' k h'
    exact addGiftTyped_giftInv M rng _ _ _ _ _ (giftInv_ri s' _ h')
  have tpond : GiftInv (pondStage M rng (houseStage M rng (treeStage M rng giftGenInit))) := by
    unfold pondStage
    refine foldl_preserves _ _ ?_ _ _ thouse
    intro s i h
    exact addGiftTyped_giftInv M rng _ _ _ _ _ (giftInv_ri s _ h)
  unfold scatterStage
  refine foldl_preserves _ _ ?_ _ _ tpond
  intro s i h
  exact scatterOne_giftInv M rng 50 s h

/-- The produced gift list has consecutive ids `0, 1, …` and every gift
uncollected. -/
theorem generateGifts_ids_uncollected (M : JsMath) (rng : ℕ → ℚ) (count : ℤ) :
    (generateGifts M rng count).map Gift.id =
      (List.range (generateGifts M rng count).length).map (fun n => (n : ℤ)) ∧
    ∀ g ∈ generateGifts M rng count, g.collected = false := by
  have h := generateGifts_giftInv M rng
  exact ⟨h.2.1, h.2.2.1⟩

theorem generateGifts_id_nonneg (M : JsMath) (rng : ℕ → ℚ) (count : ℤ)
    (g : Gift) (hg : g ∈ generateGifts M rng count) : 0 ≤ g.id :=
  (generateGifts_giftInv M rng).2.2.2 g hg

/-- C3 (code bug): the invariant "`foundCount` equals the number of
collected gifts in every reachable state" is violated by the same guard
slip as C1: from the App's initial state, the single event `collect (-1)`
(an id no generated gift carries, since the generators assign only
non-negative ids) yields `foundCount = 1` while no gift is collected. -/
theorem foundCount_invariant_violated :
    (run [Ev.collect (-1)] (appInitialState M0 rng0 rng0)).foundCount = 1 ∧
    ((run [Ev.collect (-1)] (appInitialState M0 rng0 rng0)).gifts.countP
      (fun g => g.collected)) = 0 ∧
    (appInitialState M0 rng0 rng0).foundCount = 0 ∧
    ((appInitialState M0 rng0 rng0).gifts.countP (fun g => g.collected)) = 0 := by
  have hids := generateGifts_ids_uncollected M0 rng0 30
  have hfind : (generateGifts M0 rng0 30).find? (fun g => g.id == (-1 : ℤ)) = none := by
    rw [List.find?_eq_none]
    intro g hg
    have := generateGifts_id_nonneg M0 rng0 30 g hg
    simp only [beq_iff_eq]
    omega
  have hmap : (generateGifts M0 rng0 30).map
      (fun g => if g.id == (-1 : ℤ) then { g with collected := true } else g) =
      generateGifts M0 rng0 30 := by
    apply list_map_eq_self
    intro g hg
    have := generateGifts_id_nonneg M0 rng0 30 g hg
    have hne : (g.id == (-1 : ℤ)) = false := by
      simp only [beq_eq_false_iff_ne, ne_eq]
      omega
    rw [hne]
    simp
  have hcount : (generateGifts M0 rng0 30).countP (fun g => g.collected) = 0 := by
    rw [List.countP_eq_zero]
    intro g hg
    simp [hids.2 g hg]
  have hrun : run [Ev.collect (-1)] (appInitialState M0 rng0 rng0) =
      handleCollect (-1) (appInitialState M0 rng0 rng0) := rfl
  rw [hrun]
  simp [handleCollect, appInitialState, initialState, hfind, hmap, hcount]
  intro a ha
  have h0 := generateGifts_id_nonneg M0 rng0 30 a ha
  have hne : ¬(a.id = -1) := by omega
  rw [if_neg hne]
  exact hids.2 a ha

/-- C4: along any event sequence from the initial session state,
`gameOver` holds exactly when `foundCount ≥ 30` (so it becomes true at the
first transition reaching 30), and `foundCount` never decreases across a
transition (so `gameOver`, once true, stays true). -/
theorem gameOver_exactly_at_30_and_monotone :
    (∀ (gifts : List Gift) (snowmen : List Snowman) (es : List Ev),
        ((run es (initialState gifts snowmen)).gameOver = true ↔
          30 ≤ (run es (initialState gifts snowmen)).foundCount)) ∧
    (∀ (s : GameState) (e : Ev), s.foundCount ≤ (applyEv s e).foundCount) := by
  constructor
  · intro gifts snowmen es
    exact run_gameOverInv es (initialState gifts snowmen) (by simp [GameOverInv, initialState])
  · intro s e
    cases e with
    | collect id => exact handleCollect_foundCount_mono id s
    | hit id => rw [applyEv, handleSnowmanHit_foundCount]

/-- Witness for C2: the no-op branch exercised on a state with no snowmen,
and the full hp-3 scenario exercised on a concrete snowman with id 7. -/
theorem snowmanHit_spec_witness :
    (handleSnowmanHit 5 ⟨true, [], [], 0, false⟩ = ⟨true, [], [], 0, false⟩) ∧
    (let sn : Snowman := ⟨7, (1, 2, 3), 0, 3, false⟩
     let s0 : GameState := ⟨true, [], [sn], 0, false⟩
     let s1 := handleSnowmanHit 7 s0
     let s2 := handleSnowmanHit 7 s1
     let s3 := handleSnowmanHit 7 s2
     s1.snowmen = [{ sn with hp := 2, isDead := false }] ∧ s1.gifts = [] ∧
     s2.snowmen = [{ sn with hp := 1, isDead := false }] ∧ s2.gifts = [] ∧
     s3.snowmen = [{ sn with hp := 0, isDead := true }] ∧
     s3.gifts = [rewardGift 7 (1, 2, 3)] ∧
     handleSnowmanHit 7 s3 = s3) := by
  constructor
  · exact snowmanHit_spec.1 5 ⟨true, [], [], 0, false⟩ rfl
  · have h := snowmanHit_spec.2.2.2 7 [] ⟨7, (1, 2, 3), 0, 3, false⟩ true false 0
      rfl rfl rfl
    simpa using h

-- ===================================================================
-- C5: the terrain height function
-- ===================================================================

/-- C5: `getTerrainVoxelY` realises the specified piecewise policy — the
ice level −2 inside the pond disc of radius 16 around `(-35, 35)`, the
flat hub 0 within distance 5 of the origin, and otherwise the floor of the
two-frequency noise formula — and in particular maps `(0,0)` to 0 and
`(-35,35)` to −2.  (`dist < c` is stated as `dist² < c²`; the function is
a pure function of its arguments by construction, so repeated calls agree.) -/
theorem getTerrainVoxelY_spec :
    ∀ (M : JsMath) (x z : ℚ),
      ((x - (-35))^2 + (z - 35)^2 < 16^2 → getTerrainVoxelY M x z = -2) ∧
      (¬((x - (-35))^2 + (z - 35)^2 < 16^2) → x^2 + z^2 < 5^2 →
        getTerrainVoxelY M x z = 0) ∧
      (¬((x - (-35))^2 + (z - 35)^2 < 16^2) → ¬(x^2 + z^2 < 5^2) →
        getTerrainVoxelY M x z =
          jsFloor (M.sin (x * (1/20)) * M.cos (z * (1/20)) * 6 +
                   M.sin (x * (1/10) + z * (1/5)) * 2)) ∧
      getTerrainVoxelY M 0 0 = 0 ∧
      getTerrainVoxelY M (-35) 35 = -2 := by
  intro M x z
  refine ⟨?_, ?_, ?_, ?_, ?_⟩
  · intro h
    unfold getTerrainVoxelY
    rw [if_pos h]
  · intro h1 h2
    unfold getTerrainVoxelY
    rw [if_neg h1, if_pos h2]
  · intro h1 h2
    unfold getTerrainVoxelY
    rw [if_neg h1, if_neg h2]
  · unfold getTerrainVoxelY
    rw [if_neg (by norm_num), if_pos (by norm_num)]
  · unfold getTerrainVoxelY
    rw [if_pos (by norm_num)]

/-- Witness for C5: all three branches exercised at concrete points —
`(-35, 35)` (pond), `(0, 0)` (hub) and `(40, 0)` (general terrain). -/
theorem getTerrainVoxelY_spec_witness :
    (((-35 : ℚ) - (-35))^2 + ((35 : ℚ) - 35)^2 < 16^2 ∧
      getTerrainVoxelY M0 (-35) 35 = -2) ∧
    (¬(((0 : ℚ) - (-35))^2 + ((0 : ℚ) - 35)^2 < 16^2) ∧ (0 : ℚ)^2 + (0 : ℚ)^2 < 5^2 ∧
      getTerrainVoxelY M0 0 0 = 0) ∧
    (¬(((40 : ℚ) - (-35))^2 + ((0 : ℚ) - 35)^2 < 16^2) ∧ ¬((40 : ℚ)^2 + (0 : ℚ)^2 < 5^2) ∧
      getTerrainVoxelY M0 40 0 =
        jsFloor (M0.sin (40 * (1/20)) * M0.cos (0 * (1/20)) * 6 +
                 M0.sin (40 * (1/10) + 0 * (1/5)) * 2)) := by
  refine ⟨⟨by norm_num, ?_⟩, ⟨by norm_num, by norm_num, ?_⟩, ⟨by norm_num, by norm_num, ?_⟩⟩
  · exact (getTerrainVoxelY_spec M0 (-35) 35).1 (by norm_num)
  · exact (getTerrainVoxelY_spec M0 0 0).2.1 (by norm_num) (by norm_num)
  · exact (getTerrainVoxelY_spec M0 40 0).2.2.1 (by norm_num) (by norm_num)

theorem addGiftTyped_length (M : JsMath) (rng : ℕ → ℚ) (x y z : ℚ)
    (t : GiftType) (s : GiftGen) :
    (addGiftTyped M rng x y z t s).gifts.length = s.gifts.length + 1 := by
  simp [addGiftTyped]

theorem foldl_gifts_length_exact {β : Type _} (f : GiftGen → β → GiftGen)
    (h : ∀ s x, (f s x).gifts.length = s.gifts.length + 1) :
    ∀ (l : List β) (s : GiftGen),
      (l.foldl f s).gifts.length = s.gifts.length + l.length := by
  intro l
  induction l with
  | nil => intro s; simp
  | cons x xs ih =>
      intro s
      rw [List.foldl_cons, ih (f s x), h s x, List.length_cons]
      omega

theorem foldl_gifts_length_mono {β : Type _} (f : GiftGen → β → GiftGen)
    (h : ∀ s x, s.gifts.length ≤ (f s x).gifts.length) :
    ∀ (l : List β) (s : GiftGen), s.gifts.length ≤ (l.foldl f s).gifts.length := by
  intro l
  induction l with
  | nil => intro s; exact le_refl _
  | cons x xs ih =>
      intro s
      exact le_trans (h s x) (ih (f s x))

theorem treeStage_length (M : JsMath) (rng : ℕ → ℚ) (s : GiftGen) :
    (treeStage M rng s).gifts.length = s.gifts.length + 12 := by
  unfold treeStage
  rw [foldl_gifts_length_exact (treeStep M rng) (fun s i => by
    unfold treeStep
    exact addGiftTyped_length M rng _ _ _ _ _)]
  simp

theorem pondStage_length (M : JsMath) (rng : ℕ → ℚ) (s : GiftGen) :
    (pondStage M rng s).gifts.length = s.gifts.length + 4 := by
  unfold pondStage
  rw [foldl_gifts_length_exact (pondStep M rng) (fun s i => by
    unfold pondStep
    exact addGiftTyped_length M rng _ _ _ _ _)]
  simp

theorem houseStep_length (M : JsMath) (rng : ℕ → ℚ) (s : GiftGen) (h : HouseSpot) :
    (houseStep M rng s h).gifts.length =
      s.gifts.length + (1 + jsFloor (rng s.ri * 2)).toNat := by
  unfold houseStep
  rw [foldl_gifts_length_exact (houseItem M rng h) (fun s k => by
    unfold houseItem
    exact addGiftTyped_length M rng _ _ _ _ _)]
  simp

theorem jsFloor_two_mul_bounds (r : ℚ) (h0 : 0 ≤ r) (h1 : r < 1) :
    0 ≤ jsFloor (r * 2) ∧ jsFloor (r * 2) ≤ 1 := by
  constructor
  · exact Int.floor_nonneg.mpr (by nlinarith)
  · have : jsFloor (r * 2) < 2 := Int.floor_lt.mpr (by push_cast; nlinarith)
    omega

theorem houseStep_length_bounds (M : JsMath) (rng : ℕ → ℚ) (hv : ValidRng rng)
    (s : GiftGen) (h : HouseSpot) :
    s.gifts.length + 1 ≤ (houseStep M rng s h).gifts.length ∧
    (houseStep M rng s h).gifts.length ≤ s.gifts.length + 2 := by
  rw [houseStep_length]
  have hb := jsFloor_two_mul_bounds (rng s.ri) (hv s.ri).1 (hv s.ri).2
  omega

theorem houseStage_length_bounds (M : JsMath) (rng : ℕ → ℚ) (hv : ValidRng rng)
    (s : GiftGen) :
    s.gifts.length + 4 ≤ (houseStage M rng s).gifts.length ∧
    (houseStage M rng s).gifts.length ≤ s.gifts.length + 8 := by
  unfold houseStage houseSpots
  simp only [List.foldl_cons, List.foldl_nil]
  have b1 := houseStep_length_bounds M rng hv s ⟨50, 0, 12, 16⟩
  have b2 := houseStep_length_bounds M rng hv
    (houseStep M rng s ⟨50, 0, 12, 16⟩) ⟨30, -50, 10, 12⟩
  have b3 := houseStep_length_bounds M rng hv
    (houseStep M rng (houseStep M rng s ⟨50, 0, 12, 16⟩) ⟨30, -50, 10, 12⟩)
    ⟨-40, -40, 14, 10⟩
  have b4 := houseStep_length_bounds M rng hv
    (houseStep M rng (houseStep M rng (houseStep M rng s ⟨50, 0, 12, 16⟩)
      ⟨30, -50, 10, 12⟩) ⟨-40, -40, 14, 10⟩) ⟨0, 60, 16, 12⟩
  omega

theorem scatterOne_length_bounds (M : JsMath) (rng : ℕ → ℚ) :
    ∀ (fuel : ℕ) (s : GiftGen),
      s.gifts.length ≤ (scatterOne M rng fuel s).gifts.length ∧
      (scatterOne M rng fuel s).gifts.length ≤ s.gifts.length + 1 := by
  intro fuel
  induction fuel with
  | zero => intro s; exact ⟨le_refl _, Nat.le_succ _⟩
  | succ f ih =>
      intro s
      simp only [scatterOne]
      split
      · exact ih { s with ri := s.ri + 2 }
      · constructor
        · simp [addGiftRandomType, addGiftTyped]
        · simp [addGiftRandomType, addGiftTyped]

theorem scatterOne_length_succ (M : JsMath) (rng : ℕ → ℚ) :
    ∀ (fuel : ℕ) (s : GiftGen),
      (∃ k, k < fuel ∧ ScatterAccept rng (s.ri + 2 * k)) →
      (scatterOne M rng fuel s).gifts.length = s.gifts.length + 1 := by
  intro fuel
  induction fuel with
  | zero =>
      rintro s ⟨k, hk, _⟩
      omega
  | succ f ih =>
      rintro s ⟨k, hk, hacc⟩
      simp only [scatterOne]
      split
      · rename_i hrej
        cases k with
        | zero =>
            exfalso
            apply hacc
            simpa using hrej
        | succ k' =>
            apply ih
            refine ⟨k', by omega, ?_⟩
            have harith : s.ri + 2 + 2 * k' = s.ri + 2 * (k' + 1) := by ring
            simpa [harith] using hacc
      · simp [addGiftRandomType, addGiftTyped]

theorem scatterStage_length_of_succeeds (M : JsMath) (rng : ℕ → ℚ)
    (hs : ScatterSucceeds rng) (s : GiftGen) :
    (scatterStage M rng s).gifts.length =
      s.gifts.length + (max 0 (25 - (s.gifts.length : ℤ))).toNat := by
  unfold scatterStage
  rw [foldl_gifts_length_exact _ (fun t x => by
    obtain ⟨k, hk, hacc⟩ := hs t.ri
    exact scatterOne_length_succ M rng 50 t ⟨k, hk, hacc⟩)]
  simp

theorem foldl_gifts_length_le {β : Type _} (f : GiftGen → β → GiftGen)
    (h : ∀ s x, (f s x).gifts.length ≤ s.gifts.length + 1) :
    ∀ (l : List β) (s : GiftGen),
      (l.foldl f s).gifts.length ≤ s.gifts.length + l.length := by
  intro l
  induction l with
  | nil => intro s; simp
  | cons x xs ih =>
      intro s
      rw [List.foldl_cons, List.length_cons]
      have h1 := ih (f s x)
      have h2 := h s x
      omega

theorem scatterStage_length_bounds (M : JsMath) (rng : ℕ → ℚ) (s : GiftGen) :
    s.gifts.length ≤ (scatterStage M rng s).gifts.length ∧
    (scatterStage M rng s).gifts.length ≤
      s.gifts.length + (max 0 (25 - (s.gifts.length : ℤ))).toNat := by
  constructor
  · unfold scatterStage
    exact foldl_gifts_length_mono _
      (fun t x => (scatterOne_length_bounds M rng 50 t).1) _ s
  · unfold scatterStage
    have h := foldl_gifts_length_le (fun t (_ : ℕ) => scatterOne M rng 50 t)
      (fun t x => (scatterOne_length_bounds M rng 50 t).2)
      (List.range (max 0 (25 - (s.gifts.length : ℤ))).toNat) s
    simpa using h

theorem generateGifts_eq_scatter_pre (M : JsMath) (rng : ℕ → ℚ) (count : ℤ) :
    generateGifts M rng count = (scatterStage M rng (prePlacement M rng)).gifts := rfl

theorem treeStage_init_length (M : JsMath) (rng : ℕ → ℚ) :
    (treeStage M rng giftGenInit).gifts.length = 12 := by
  rw [treeStage_length]
  rfl

theorem prePlacement_length_bounds (M : JsMath) (rng : ℕ → ℚ) (hv : ValidRng rng) :
    20 ≤ (prePlacement M rng).gifts.length ∧
    (prePlacement M rng).gifts.length ≤ 24 := by
  unfold prePlacement
  have ht := treeStage_init_length M rng
  have hh := houseStage_length_bounds M rng hv (treeStage M rng giftGenInit)
  rw [pondStage_length]
  omega

theorem generateGifts_length_bounds (M : JsMath) (rng : ℕ → ℚ) (count : ℤ)
    (hv : ValidRng rng) :
    20 ≤ (generateGifts M rng count).length ∧
    (generateGifts M rng count).length ≤ 25 := by
  rw [generateGifts_eq_scatter_pre]
  have hb := scatterStage_length_bounds M rng (prePlacement M rng)
  have hp := prePlacement_length_bounds M rng hv
  have h25 : (0 : ℤ) ≤ 25 - ((prePlacement M rng).gifts.length : ℤ) := by omega
  rw [max_eq_right h25] at hb
  omega

theorem generateGifts_length_of_succeeds (M : JsMath) (rng : ℕ → ℚ) (count : ℤ)
    (hv : ValidRng rng) (hs : ScatterSucceeds rng) :
    (generateGifts M rng count).length = 25 := by
  rw [generateGifts_eq_scatter_pre]
  rw [scatterStage_length_of_succeeds M rng hs]
  have hp := prePlacement_length_bounds M rng hv
  have h25 : (0 : ℤ) ≤ 25 - ((prePlacement M rng).gifts.length : ℤ) := by omega
  rw [max_eq_right h25]
  omega

theorem houseStep_length_rng0 (M : JsMath) (s : GiftGen) (h : HouseSpot) :
    (houseStep M rng0 s h).gifts.length = s.gifts.length + 1 := by
  rw [houseStep_length]
  norm_num [rng0, jsFloor]

theorem prePlacement_length_rng0 (M : JsMath) :
    (prePlacement M rng0).gifts.length = 20 := by
  unfold prePlacement
  rw [pondStage_length]
  unfold houseStage
  rw [foldl_gifts_length_exact (houseStep M rng0) (houseStep_length_rng0 M)]
  rw [treeStage_init_length]
  rfl

theorem scatterSucceeds_rng0 : ScatterSucceeds rng0 :=
  fun ri => ⟨0, by norm_num, by norm_num [ScatterAccept, rng0]⟩

/-- The fixed stages keep every previously placed gift, and the scatter
stage appends only scatter-shaped gifts. -/
theorem foldl_gifts_extends {β : Type _} (f : GiftGen → β → GiftGen)
    (h : ∀ s x, ∃ t, (f s x).gifts = s.gifts ++ t) :
    ∀ (l : List β) (s : GiftGen), ∃ t, (l.foldl f s).gifts = s.gifts ++ t := by
  intro l
  induction l with
  | nil => intro s; exact ⟨[], by simp⟩
  | cons x xs ih =>
      intro s
      obtain ⟨t1, ht1⟩ := h s x
      obtain ⟨t2, ht2⟩ := ih (f s x)
      exact ⟨t1 ++ t2, by rw [List.foldl_cons, ht2, ht1, List.append_assoc]⟩

theorem addGiftTyped_gifts (M : JsMath) (rng : ℕ → ℚ) (x y z : ℚ)
    (t : GiftType) (s : GiftGen) :
    ∃ u, (addGiftTyped M rng x y z t s).gifts = s.gifts ++ u :=
  ⟨_, rfl⟩

theorem scatterOne_extends (M : JsMath) (rng : ℕ → ℚ) :
    ∀ (fuel : ℕ) (s : GiftGen), ∃ t, (scatterOne M rng fuel s).gifts = s.gifts ++ t := by
  intro fuel
  induction fuel with
  | zero => intro s; exact ⟨[], by simp [scatterOne]⟩
  | succ f ih =>
      intro s
      simp only [scatterOne]
      split
      · exact ih { s with ri := s.ri + 2 }
      · exact ⟨_, rfl⟩

theorem generateGifts_extends_tree (M : JsMath) (rng : ℕ → ℚ) (count : ℤ) :
    ∃ t, generateGifts M rng count = (treeStage M rng giftGenInit).gifts ++ t := by
  rw [generateGifts_eq_scatter_pre]
  unfold prePlacement
  have hhouse : ∃ t, (houseStage M rng (treeStage M rng giftGenInit)).gifts =
      (treeStage M rng giftGenInit).gifts ++ t := by
    unfold houseStage
    refine foldl_gifts_extends _ (fun s h => ?_) _ _
    unfold houseStep
    refine foldl_gifts_extends _ (fun s' k => ?_) _ _
    unfold houseItem
    exact addGiftTyped_gifts M rng _ _ _ _ _
  obtain ⟨t1, ht1⟩ := hhouse
  have hpond : ∃ t, (pondStage M rng (houseStage M rng (treeStage M rng giftGenInit))).gifts =
      (houseStage M rng (treeStage M rng giftGenInit)).gifts ++ t := by
    unfold pondStage
    refine foldl_gifts_extends _ (fun s i => ?_) _ _
    unfold pondStep
    exact addGiftTyped_gifts M rng _ _ _ _ _
  obtain ⟨t2, ht2⟩ := hpond
  have hscatter : ∃ t, (scatterStage M rng (pondStage M rng (houseStage M rng
      (treeStage M rng giftGenInit)))).gifts =
      (pondStage M rng (houseStage M rng (treeStage M rng giftGenInit))).gifts ++ t := by
    unfold scatterStage
    exact foldl_gifts_extends _ (fun s i => scatterOne_extends M rng 50 s) _ _
  obtain ⟨t3, ht3⟩ := hscatter
  exact ⟨t1 ++ t2 ++ t3, by rw [ht3, ht2, ht1]; simp [List.append_assoc]⟩

/-- Every gift in the output is either from the fixed stages or has the
scatter shape (distance ≥ 6 sample, terrain height placement). -/
theorem scatterOne_shape (M : JsMath) (rng : ℕ → ℚ) (L : List Gift) :
    ∀ (fuel : ℕ) (s : GiftGen),
      (∀ g ∈ s.gifts, g ∈ L ∨ ScatterGiftShape M g) →
      ∀ g ∈ (scatterOne M rng fuel s).gifts, g ∈ L ∨ ScatterGiftShape M g := by
  intro fuel
  induction fuel with
  | zero => intro s h; exact h
  | succ f ih =>
      intro s h
      simp only [scatterOne]
      split
      · exact ih { s with ri := s.ri + 2 } h
      · rename_i hrej
        intro g hg
        simp only [addGiftRandomType, addGiftTyped, List.mem_append,
          List.mem_singleton] at hg
        rcases hg with hg | hg
        · exact h g hg
        · right
          refine ⟨(rng s.ri - 1/2) * 160, (rng (s.ri + 1) - 1/2) * 160, hrej, ?_⟩
          rw [hg]

theorem generateGifts_scatter_shape (M : JsMath) (rng : ℕ → ℚ) (count : ℤ) :
    ∀ g ∈ generateGifts M rng count,
      g ∈ (prePlacement M rng).gifts ∨ ScatterGiftShape M g := by
  rw [generateGifts_eq_scatter_pre]
  unfold scatterStage
  exact foldl_preserves
    (fun (s : GiftGen) => ∀ g ∈ s.gifts,
      g ∈ (prePlacement M rng).gifts ∨ ScatterGiftShape M g)
    (fun t _ => scatterOne M rng 50 t)
    (fun s (_ : ℕ) hs => scatterOne_shape M rng _ 50 s hs)
    (List.range (max 0 (25 - ((prePlacement M rng).gifts.length : ℤ))).toNat)
    (prePlacement M rng)
    (fun g hg => Or.inl hg)

-- ===================================================================
-- C6 and C10
-- ===================================================================

/-- Counterexample for C6: with the all-zero sample stream,
`generateGifts(30)` returns 25 gifts, not the 30 the claim's
"scatter fills the remainder up to the target count" arithmetic demands
(tree 12 + houses 4 + pond 4 + scatter to the target 30). -/
theorem generateGifts_count_counterexample :
    (generateGifts M0 rng0 30).length = 25 ∧
    ¬((generateGifts M0 rng0 30).length = 30) := by
  have h : (generateGifts M0 rng0 30).length = 25 := by
    rw [generateGifts_eq_scatter_pre,
      scatterStage_length_of_succeeds M0 rng0 scatterSucceeds_rng0,
      prePlacement_length_rng0]
    norm_num
    decide
  exact ⟨h, by omega⟩

/-- C6 as amended: the scatter stage fills the remainder up to the internal
fixed target 25 (not up to the `count` argument), so `generateGifts(count)`
returns tree (12) + buildings (4–8) + pond (4) + scatter up to 25 items:
between 20 and 25 in total, never more than 25; and every scatter-stage
gift is placed from a sample at distance ≥ 6 logical units from the origin
at the terrain height plus the fixed lift. -/
theorem generateGifts_counts_amended :
    ∀ (M : JsMath) (rng : ℕ → ℚ) (count : ℤ), ValidRng rng →
      (treeStage M rng giftGenInit).gifts.length = 12 ∧
      20 ≤ (prePlacement M rng).gifts.length ∧
      (prePlacement M rng).gifts.length ≤ 24 ∧
      20 ≤ (generateGifts M rng count).length ∧
      (generateGifts M rng count).length ≤ 25 ∧
      ∀ g ∈ generateGifts M rng count,
        g ∈ (prePlacement M rng).gifts ∨ ScatterGiftShape M g := by
  intro M rng count hv
  have hp := prePlacement_length_bounds M rng hv
  have hg := generateGifts_length_bounds M rng count hv
  exact ⟨treeStage_init_length M rng, hp.1, hp.2, hg.1, hg.2,
    generateGifts_scatter_shape M rng count⟩

/-- Witness for C6 (amended): instantiated at the all-zero stream. -/
theorem generateGifts_counts_amended_witness :
    ValidRng rng0 ∧
    20 ≤ (generateGifts M0 rng0 30).length ∧
    (generateGifts M0 rng0 30).length ≤ 25 :=
  ⟨validRng_rng0,
   (generateGifts_counts_amended M0 rng0 30 validRng_rng0).2.2.2.1,
   (generateGifts_counts_amended M0 rng0 30 validRng_rng0).2.2.2.2.1⟩

/-- C10: the `count` parameter of `generateGifts` is unused — the result is
identical for any two arguments; the scatter stage tops the collection up
to the internal target 25, so at most 25 gifts are returned (never 30),
exactly 25 whenever every scatter attempt finds an accepted sample within
its 50-sample budget; and ids are consecutive integers from 0. -/
theorem generateGifts_count_unused :
    (∀ (M : JsMath) (rng : ℕ → ℚ) (c c' : ℤ),
        generateGifts M rng c = generateGifts M rng c') ∧
    (∀ (M : JsMath) (rng : ℕ → ℚ) (count : ℤ), ValidRng rng →
        (generateGifts M rng count).length ≤ 25 ∧
        ¬((generateGifts M rng count).length = 30) ∧
        (generateGifts M rng count).map Gift.id =
          (List.range (generateGifts M rng count).length).map (fun n => (n : ℤ))) ∧
    (∀ (M : JsMath) (rng : ℕ → ℚ) (count : ℤ), ValidRng rng →
        ScatterSucceeds rng → (generateGifts M rng count).length = 25) := by
  refine ⟨fun M rng c c' => rfl, ?_, ?_⟩
  · intro M rng count hv
    have hb := generateGifts_length_bounds M rng count hv
    exact ⟨hb.2, by omega, (generateGifts_ids_uncollected M rng count).1⟩
  · intro M rng count hv hs
    exact generateGifts_length_of_succeeds M rng count hv hs

/-- Witness for C10: at the all-zero stream every scatter attempt accepts
its first sample, and `generateGifts 30 = generateGifts 0` (count unused)
with exactly 25 gifts. -/
theorem generateGifts_count_unused_witness :
    ValidRng rng0 ∧ ScatterSucceeds rng0 ∧
    generateGifts M0 rng0 30 = generateGifts M0 rng0 0 ∧
    (generateGifts M0 rng0 30).length = 25 :=
  ⟨validRng_rng0, scatterSucceeds_rng0,
   generateGifts_count_unused.1 M0 rng0 30 0,
   generateGifts_count_unused.2.2 M0 rng0 30 validRng_rng0 scatterSucceeds_rng0⟩

theorem list_range_twelve :
    List.range 12 = [0, 1, 2, 3, 4, 5, 6, 7, 8, 9, 10, 11] := by decide

theorem treeStage_gifts_eq (M : JsMath) (rng : ℕ → ℚ) :
    (treeStage M rng giftGenInit).gifts =
      (List.range 12).map (treeGiftRecord M rng) := by
  rw [treeStage, list_range_twelve]
  simp only [List.foldl_cons, List.foldl_nil, List.map_cons, List.map_nil]
  simp only [treeStep, addGiftTyped, giftGenInit, treeGiftRecord]
  norm_num

/-- C9: the gift generator's tree-surface placement uses the same canopy
tapering formula as the world generator (`appRadiusAtHeight` at
`yVoxel = heightPercent · 100` equals `worldCanopyRadius` at that height),
and each of the twelve tree gifts picks a height fraction in
[0.15, 0.85], sits at the canopy radius plus exactly 1.5, and alternates
between ornament and star. -/
theorem treeGifts_match_canopy_formula :
    (∀ (M : JsMath) (heightPercent : ℚ),
        appRadiusAtHeight M heightPercent (heightPercent * 100) =
          worldCanopyRadius M (heightPercent * 100)) ∧
    (∀ (M : JsMath) (rng : ℕ → ℚ) (count : ℤ), ValidRng rng →
        ∀ i, i < 12 →
        ∃ (g : Gift) (hp θ : ℚ),
          (generateGifts M rng count).get? i = some g ∧
          3/20 ≤ hp ∧ hp < 17/20 ∧
          g.type = (if i % 2 = 0 then GiftType.ornament else GiftType.star) ∧
          g.position =
            (M.cos θ * (appRadiusAtHeight M hp (hp * 100) + 3/2) * VOXEL_SIZE,
             hp * 100 * VOXEL_SIZE,
             M.sin θ * (appRadiusAtHeight M hp (hp * 100) + 3/2) * VOXEL_SIZE)) := by
  constructor
  · intro M heightPercent
    unfold appRadiusAtHeight worldCanopyRadius
    ring
  · intro M rng count hv i hi
    obtain ⟨t, ht⟩ := generateGifts_extends_tree M rng count
    have hlen := treeStage_init_length M rng
    refine ⟨treeGiftRecord M rng i, 3/20 + rng (6 * i) * (7/10),
      rng (6 * i + 1) * M.pi * 2, ?_, ?_, ?_, rfl, rfl⟩
    · rw [ht, List.get?_append (by omega), treeStage_gifts_eq M rng,
        List.get?_map, List.get?_range hi]
      rfl
    · have := (hv (6 * i)).1
      nlinarith
    · have := (hv (6 * i)).2
      nlinarith

/-- Witness for C9: the formula identity at height fraction 1/2, and the
first tree gift of a concrete run. -/
theorem treeGifts_match_canopy_formula_witness :
    (appRadiusAtHeight M0 (1/2) ((1/2) * 100) = worldCanopyRadius M0 ((1/2) * 100)) ∧
    ValidRng rng0 ∧ 0 < 12 ∧
    (∃ (g : Gift) (hp θ : ℚ),
        (generateGifts M0 rng0 30).get? 0 = some g ∧
        3/20 ≤ hp ∧ hp < 17/20 ∧
        g.type = (if 0 % 2 = 0 then GiftType.ornament else GiftType.star) ∧
        g.position =
          (M0.cos θ * (appRadiusAtHeight M0 hp (hp * 100) + 3/2) * VOXEL_SIZE,
           hp * 100 * VOXEL_SIZE,
           M0.sin θ * (appRadiusAtHeight M0 hp (hp * 100) + 3/2) * VOXEL_SIZE)) :=
  ⟨treeGifts_match_canopy_formula.1 M0 (1/2), validRng_rng0, by norm_num,
   treeGifts_match_canopy_formula.2 M0 rng0 30 validRng_rng0 0 (by norm_num)⟩

theorem snowmanStep_eq (M : JsMath) (rng : ℕ → ℚ) (s : SnowGen) (i : ℕ) :
    snowmanStep M rng s i =
      { snowmen := s.snowmen ++ [snowmanRecord M rng s.ri i]
        ri := (if i = 0 then ((15 : ℚ), (15 : ℚ), s.ri)
               else if i = 1 then (-20, -10, s.ri)
               else snowmanSample rng s.ri 19).2.2 + 1 } := rfl

theorem snowmanRecord_props (M : JsMath) (rng : ℕ → ℚ) (ri i : ℕ) :
    (snowmanRecord M rng ri i).id = (i : ℤ) ∧
    (snowmanRecord M rng ri i).hp = 3 ∧
    (snowmanRecord M rng ri i).isDead = false ∧
    ∃ x z, (snowmanRecord M rng ri i).position =
        (x * VOXEL_SIZE, (getTerrainVoxelY M x z : ℚ) * VOXEL_SIZE, z * VOXEL_SIZE) ∧
      (i = 0 → x = 15 ∧ z = 15) ∧
      (i = 1 → x = -20 ∧ z = -10) ∧
      (2 ≤ i → ∃ rj, x = fix0 (snowmanSample rng rj 19).1 ∧
                      z = fix0 (snowmanSample rng rj 19).2.1) := by
  refine ⟨rfl, rfl, rfl, ?_⟩
  by_cases h0 : i = 0
  · subst h0
    refine ⟨15, 15, ?_, fun _ => ⟨rfl, rfl⟩, fun h => by omega, fun h => by omega⟩
    show ((fix0 15 * VOXEL_SIZE, _, _) : ℚ × ℚ × ℚ) = _
    norm_num [fix0, snowmanRecord]
  · by_cases h1 : i = 1
    · subst h1
      refine ⟨-20, -10, ?_, fun h => by omega, fun _ => ⟨rfl, rfl⟩, fun h => by omega⟩
      norm_num [fix0, snowmanRecord]
    · refine ⟨fix0 (snowmanSample rng ri 19).1, fix0 (snowmanSample rng ri 19).2.1,
        ?_, fun h => absurd h h0, fun h => absurd h h1,
        fun h => ⟨ri, rfl, rfl⟩⟩
      simp only [snowmanRecord, h0, h1, if_false]

theorem generateSnowmen_build (M : JsMath) (rng : ℕ → ℚ) :
    ∀ n : ℕ,
      ((List.range n).foldl (snowmanStep M rng) ⟨[], 0⟩).snowmen.length = n ∧
      ∀ i, i < n →
        ∃ rj, ((List.range n).foldl (snowmanStep M rng) ⟨[], 0⟩).snowmen.get? i =
          some (snowmanRecord M rng rj i) := by
  intro n
  induction n with
  | zero => exact ⟨rfl, fun i hi => absurd hi (by omega)⟩
  | succ n ih =>
      obtain ⟨ihlen, ihget⟩ := ih
      rw [List.range_succ, List.foldl_append, List.foldl_cons, List.foldl_nil,
        snowmanStep_eq]
      constructor
      · simp [ihlen]
      · intro i hi
        by_cases hlt : i < n
        · obtain ⟨rj, hrj⟩ := ihget i hlt
          refine ⟨rj, ?_⟩
          rw [List.get?_append (by omega)]
          exact hrj
        · have hieq : i = n := by omega
          subst hieq
          refine ⟨((List.range i).foldl (snowmanStep M rng) ⟨[], 0⟩).ri, ?_⟩
          have h := List.get?_concat_length
            (((List.range i).foldl (snowmanStep M rng) ⟨[], 0⟩).snowmen)
            (snowmanRecord M rng ((List.range i).foldl (snowmanStep M rng) ⟨[], 0⟩).ri i)
          rw [ihlen] at h
          exact h

/-- Per-index characterization of `generateSnowmen`. -/
theorem generateSnowmen_get (M : JsMath) (rng : ℕ → ℚ) (count : ℤ) (i : ℕ)
    (hi : i < count.toNat) :
    ∃ rj, (generateSnowmen M rng count).get? i = some (snowmanRecord M rng rj i) := by
  unfold generateSnowmen
  exact (generateSnowmen_build M rng count.toNat).2 i hi

/-- The sampling loop either returns an accepted sample (distance ≥ 8) or,
when every one of its samples is rejected, the last sample drawn. -/
theorem snowmanSample_spec (rng : ℕ → ℚ) :
    ∀ (fuel ri : ℕ),
      ¬((snowmanSample rng ri fuel).1^2 + (snowmanSample rng ri fuel).2.1^2 < 8^2) ∨
      ((∀ k, k ≤ fuel → SnowRejected rng (ri + 2 * k)) ∧
        (snowmanSample rng ri fuel).1 = (rng (ri + 2 * fuel) - 1/2) * 2 * 70 ∧
        (snowmanSample rng ri fuel).2.1 = (rng (ri + 2 * fuel + 1) - 1/2) * 2 * 70) := by
  intro fuel
  induction fuel with
  | zero =>
      intro ri
      rw [snowmanSample]
      by_cases h : ((rng ri - 1/2) * 2 * 70)^2 + ((rng (ri + 1) - 1/2) * 2 * 70)^2 < 8^2
      · rw [if_pos h]
        right
        refine ⟨fun k hk => ?_, by norm_num, by norm_num⟩
        have : k = 0 := by omega
        subst this
        simpa [SnowRejected] using h
      · rw [if_neg h]
        left
        simpa using h
  | succ f ih =>
      intro ri
      rw [snowmanSample]
      by_cases h : ((rng ri - 1/2) * 2 * 70)^2 + ((rng (ri + 1) - 1/2) * 2 * 70)^2 < 8^2
      · rw [if_pos h]
        rcases ih (ri + 2) with hacc | ⟨hrej, hx, hz⟩
        · exact Or.inl hacc
        · right
          refine ⟨fun k hk => ?_, ?_, ?_⟩
          · cases k with
            | zero => simpa [SnowRejected] using h
            | succ k' =>
                have harith : ri + 2 * (k' + 1) = (ri + 2) + 2 * k' := by ring
                rw [harith]
                exact hrej k' (by omega)
          · have harith : ri + 2 * (f + 1) = (ri + 2) + 2 * f := by ring
            rw [harith]
            exact hx
          · have harith : ri + 2 * (f + 1) + 1 = (ri + 2) + 2 * f + 1 := by ring
            rw [harith]
            exact hz
      · rw [if_neg h]
        left
        simpa using h

theorem snowmanSample_rngC : ∀ (fuel ri : ℕ),
    snowmanSample rngC ri fuel = (7/5, 7/5, ri + 2 * fuel + 2) := by
  intro fuel
  induction fuel with
  | zero =>
      intro ri
      simp only [snowmanSample]
      rw [if_pos (by norm_num [rngC])]
      norm_num [rngC]
  | succ f ih =>
      intro ri
      simp only [snowmanSample]
      rw [if_pos (by norm_num [rngC])]
      rw [ih (ri + 2)]
      have harith : ri + 2 + 2 * f + 2 = ri + 2 * (f + 1) + 2 := by ring
      rw [harith]

/-- Counterexample for C7: with every sample equal to 0.51 each sample is
rejected, so the third snowman's 20-attempt budget is exhausted — yet its
position is the *last rejected sample* `(1.4, 1.4)` (world x-coordinate
`0.35`, still inside the exclusion radius), not the fallback fixed
coordinate 10 (world `2.5`): the `if (!xVoxel) xVoxel = 10` guard replaces
only an exactly-zero coordinate. -/
theorem generateSnowmen_fallback_counterexample :
    (∀ j, SnowRejected rngC j) ∧
    (∃ sm, (generateSnowmen M0 rngC 3).get? 2 = some sm ∧
        sm.position.1 = 7/20 ∧ sm.position.2.2 = 7/20 ∧
        ¬(sm.position.1 = 10 * VOXEL_SIZE)) := by
  refine ⟨fun j => by norm_num [SnowRejected, rngC], ?_⟩
  obtain ⟨rj, hget⟩ := generateSnowmen_get M0 rngC 3 2 (by norm_num)
  refine ⟨snowmanRecord M0 rngC rj 2, hget, ?_, ?_, ?_⟩
  · norm_num [snowmanRecord, snowmanSample_rngC, fix0, VOXEL_SIZE]
  · norm_num [snowmanRecord, snowmanSample_rngC, fix0, VOXEL_SIZE]
  · norm_num [snowmanRecord, snowmanSample_rngC, fix0, VOXEL_SIZE]

/-- C7 as amended: the first two snowmen use the fixed scenic coordinates;
each later one samples points in the ±70 square, rejecting samples within
8 units of the origin with a 20-iteration budget, and when the budget is
exhausted it keeps the *last sampled* (rejected) coordinate — there is no
fixed fallback coordinate for loop exhaustion; independently, a final
coordinate equal to exactly 0 is replaced by the fixed value 10.  Every
snowman's elevation comes from `getTerrainVoxelY` at its final
coordinates, and every snowman starts with hp 3 and isDead false. -/
theorem generateSnowmen_spec_amended :
    (∀ (M : JsMath) (rng : ℕ → ℚ) (count : ℤ) (i : ℕ), i < count.toNat →
      ∃ sm x z, (generateSnowmen M rng count).get? i = some sm ∧
        sm.id = (i : ℤ) ∧ sm.hp = 3 ∧ sm.isDead = false ∧
        sm.position = (x * VOXEL_SIZE, (getTerrainVoxelY M x z : ℚ) * VOXEL_SIZE,
                       z * VOXEL_SIZE) ∧
        (i = 0 → x = 15 ∧ z = 15) ∧
        (i = 1 → x = -20 ∧ z = -10) ∧
        (2 ≤ i → ∃ rj, x = fix0 (snowmanSample rng rj 19).1 ∧
                        z = fix0 (snowmanSample rng rj 19).2.1)) ∧
    (∀ (rng : ℕ → ℚ) (ri fuel : ℕ),
      ¬((snowmanSample rng ri fuel).1^2 + (snowmanSample rng ri fuel).2.1^2 < 8^2) ∨
      ((∀ k, k ≤ fuel → SnowRejected rng (ri + 2 * k)) ∧
        (snowmanSample rng ri fuel).1 = (rng (ri + 2 * fuel) - 1/2) * 2 * 70 ∧
        (snowmanSample rng ri fuel).2.1 = (rng (ri + 2 * fuel + 1) - 1/2) * 2 * 70)) := by
  constructor
  · intro M rng count i hi
    obtain ⟨rj, hget⟩ := generateSnowmen_get M rng count i hi
    obtain ⟨hid, hhp, hdead, x, z, hpos, h0, h1, h2⟩ := snowmanRecord_props M rng rj i
    exact ⟨snowmanRecord M rng rj i, x, z, hget, hid, hhp, hdead, hpos, h0, h1, h2⟩
  · exact fun rng ri fuel => snowmanSample_spec rng fuel ri

/-- Witness for C7 (amended): the first snowman of a concrete run, and the
sampling-loop specification at stream position 0 with the full budget. -/
theorem generateSnowmen_spec_amended_witness :
    (∃ sm x z, (generateSnowmen M0 rng0 5).get? 0 = some sm ∧
        sm.id = ((0 : ℕ) : ℤ) ∧ sm.hp = 3 ∧ sm.isDead = false ∧
        sm.position = (x * VOXEL_SIZE, (getTerrainVoxelY M0 x z : ℚ) * VOXEL_SIZE,
                       z * VOXEL_SIZE) ∧
        ((0 : ℕ) = 0 → x = 15 ∧ z = 15) ∧
        ((0 : ℕ) = 1 → x = -20 ∧ z = -10) ∧
        (2 ≤ (0 : ℕ) → ∃ rj, x = fix0 (snowmanSample rng0 rj 19).1 ∧
                        z = fix0 (snowmanSample rng0 rj 19).2.1)) ∧
    (¬((snowmanSample rng0 0 19).1^2 + (snowmanSample rng0 0 19).2.1^2 < 8^2) ∨
      ((∀ k, k ≤ 19 → SnowRejected rng0 (0 + 2 * k)) ∧
        (snowmanSample rng0 0 19).1 = (rng0 (0 + 2 * 19) - 1/2) * 2 * 70 ∧
        (snowmanSample rng0 0 19).2.1 = (rng0 (0 + 2 * 19 + 1) - 1/2) * 2 * 70)) :=
  ⟨generateSnowmen_spec_amended.1 M0 rng0 5 0 (by norm_num),
   generateSnowmen_spec_amended.2 rng0 0 19⟩

theorem jsRound_nonneg (q : ℚ) (h : 0 ≤ q) : 0 ≤ jsRound q := by
  unfold jsRound
  positivity

theorem mem_intRange {a lo hi : ℤ} : a ∈ intRange lo hi ↔ lo ≤ a ∧ a ≤ hi := by
  unfold intRange
  simp only [List.mem_map, List.mem_range]
  constructor
  · rintro ⟨k, hk, hkeq⟩
    omega
  · rintro ⟨h1, h2⟩
    exact ⟨(a - lo).toNat, by omega, by omega⟩

theorem intRange_nodup (lo hi : ℤ) : (intRange lo hi).Nodup := by
  unfold intRange
  refine List.Nodup.map ?_ (List.nodup_range _)
  intro a b hab
  have h' : lo + (a : ℤ) = lo + (b : ℤ) := hab
  omega

theorem foldl_preserves_mem {α β : Type _} (P : α → Prop) (f : α → β → α)
    (l : List β) (h : ∀ s x, x ∈ l → P s → P (f s x)) :
    ∀ s, P s → P (l.foldl f s) := by
  induction l with
  | nil => intro s hs; exact hs
  | cons x xs ih =>
      intro s hs
      exact ih (fun s' x' hx' => h s' x' (by simp [hx'])) (f s x)
        (h s x (by simp) hs)

theorem addVox_ice_water (x y z : ℚ) (c : ℕ) (g : Bool) (s : WGen) :
    (addVox x y z c g s).interactiveIce = s.interactiveIce ∧
    (addVox x y z c g s).waterVoxels = s.waterVoxels := by
  simp only [addVox]
  split
  · exact ⟨rfl, rfl⟩
  · exact ⟨rfl, rfl⟩

theorem winv_push (M : JsMath) (s : WGen) (vox : VoxelData)
    (reg' glow' : List VoxelData)
    (hperm : (reg' ++ glow').Perm (vox :: (s.regular ++ s.glowing)))
    (hnm : coordOf vox ∉ s.occupied)
    (hp : PCoord M (coordOf vox))
    (h : WInv M s) :
    WInv M { s with
      occupied := coordOf vox :: s.occupied
      regular := reg'
      glowing := glow' } := by
  obtain ⟨h1, h2, h3, h4, h5, h6, h7⟩ := h
  have hmapperm := hperm.map coordOf
  refine ⟨?_, ?_, ?_, h4, h5, h6, h7⟩
  · refine (List.Perm.nodup_iff hmapperm).mpr ?_
    simp only [List.map_cons]
    exact List.nodup_cons.mpr ⟨fun hc => hnm (h2 _ hc), h1⟩
  · intro cc hcc
    have hmem : cc ∈ (vox :: (s.regular ++ s.glowing)).map coordOf :=
      (hmapperm.mem_iff).mp hcc
    simp only [List.map_cons, List.mem_cons] at hmem
    rcases hmem with hcc' | hcc'
    · rw [hcc']
      exact List.mem_cons_self _ _
    · exact List.mem_cons_of_mem _ (h2 _ hcc')
  · intro cc hcc
    rcases List.mem_cons.mp hcc with hcc' | hcc'
    · rw [hcc']
      exact hp
    · exact h3 _ hcc'

theorem addVox_winv (M : JsMath) (x y z : ℚ) (c : ℕ) (g : Bool) (s : WGen)
    (hp : PCoord M (jsRound x, jsRound y, jsRound z)) (h : WInv M s) :
    WInv M (addVox x y z c g s) := by
  simp only [addVox]
  split
  · exact h
  · rename_i hnm
    cases g
    · exact winv_push M s ⟨jsRound x, jsRound y, jsRound z, c⟩
        (s.regular ++ [⟨jsRound x, jsRound y, jsRound z, c⟩]) s.glowing
        (by
          have hcomm : (s.regular ++ [(⟨jsRound x, jsRound y, jsRound z, c⟩ : VoxelData)]).Perm
              ((⟨jsRound x, jsRound y, jsRound z, c⟩ : VoxelData) :: s.regular) :=
            List.perm_append_singleton _ _
          exact hcomm.append_right s.glowing)
        hnm hp ⟨h.1, h.2.1, h.2.2.1, h.2.2.2.1, h.2.2.2.2.1, h.2.2.2.2.2.1,
          h.2.2.2.2.2.2⟩
    · exact winv_push M s ⟨jsRound x, jsRound y, jsRound z, c⟩
        s.regular (s.glowing ++ [⟨jsRound x, jsRound y, jsRound z, c⟩])
        (by
          rw [← List.append_assoc]
          exact List.perm_append_singleton _ _)
        hnm hp ⟨h.1, h.2.1, h.2.2.1, h.2.2.2.1, h.2.2.2.2.1, h.2.2.2.2.2.1,
          h.2.2.2.2.2.2⟩

theorem winv_lampCoords (M : JsMath) (s : WGen) (l : List WPoint)
    (h : WInv M s) : WInv M { s with lampCoords := l } := h

set_option maxHeartbeats 1000000 in
theorem buildLamp_winv (M : JsMath) (x y z : ℚ) (hy : 0 ≤ y) (s : WGen)
    (h : WInv M s) : WInv M (buildLamp x y z s) := by
  have h1 : WInv M ((List.range 9).foldl
      (fun t (k : ℕ) => addVox x (y + (k : ℚ)) z PALETTE_LAMP_POST false t) s) := by
    refine foldl_preserves (WInv M) _ ?_ _ _ h
    intro t k ht
    exact addVox_winv M _ _ _ _ _ t
      (Or.inl (jsRound_nonneg _ (add_nonneg hy (Nat.cast_nonneg k)))) ht
  have h2 := addVox_winv M x (y + 9 - 1) z PALETTE_LAMP_POST false _
    (Or.inl (jsRound_nonneg _ (by linarith))) h1
  have h3 := addVox_winv M x (y + 9 - 1 + 1/2) z PALETTE_LAMP_POST false _
    (Or.inl (jsRound_nonneg _ (by linarith))) h2
  have h4 := addVox_winv M x (y + 9 - 1 - 1/2) (z + 3/5) PALETTE_LAMP_POST false _
    (Or.inl (jsRound_nonneg _ (by linarith))) h3
  have h5 := addVox_winv M x (y + 9 - 1 - 1/2) (z - 3/5) PALETTE_LAMP_POST false _
    (Or.inl (jsRound_nonneg _ (by linarith))) h4
  have h6 := addVox_winv M (x + 3/5) (y + 9 - 1 - 1/2) z PALETTE_LAMP_POST false _
    (Or.inl (jsRound_nonneg _ (by linarith))) h5
  have h7 := addVox_winv M (x - 3/5) (y + 9 - 1 - 1/2) z PALETTE_LAMP_POST false _
    (Or.inl (jsRound_nonneg _ (by linarith))) h6
  have h8 := addVox_winv M x (y + 9 - 1 - 1/2) z PALETTE_LAMP_WARM true _
    (Or.inl (jsRound_nonneg _ (by linarith))) h7
  exact winv_lampCoords M _ _ h8

set_option maxHeartbeats 1000000 in
theorem createPath_winv (M : JsMath) (rng : ℕ → ℚ) (x1 z1 x2 z2 wo : ℚ)
    (s : WGen) (h : WInv M s) :
    WInv M (createPath M rng x1 z1 x2 z2 wo s) := by
  simp only [createPath]
  split
  · refine foldl_preserves (WInv M) _ (fun t i ht => ?_) _ _ ?_
    · exact buildLamp_winv M _ 0 _ le_rfl _ ht
    · refine foldl_preserves (WInv M) _ (fun t i ht => ?_) _ _ h
      refine foldl_preserves (WInv M) _ (fun u ox hu => ?_) _ _ ht
      refine foldl_preserves (WInv M) _ (fun v oz hv => ?_) _ _ hu
      exact hv
  · refine foldl_preserves (WInv M) _ (fun t i ht => ?_) _ _ h
    refine foldl_preserves (WInv M) _ (fun u ox hu => ?_) _ _ ht
    refine foldl_preserves (WInv M) _ (fun v oz hv => ?_) _ _ hu
    exact hv

set_option maxHeartbeats 1000000 in
theorem pathsStage_winv (M : JsMath) (rng : ℕ → ℚ) (s : WGen) (h : WInv M s) :
    WInv M (pathsStage M rng s) := by
  unfold pathsStage
  have h1 : WInv M (worldBuildings.foldl (fun t b =>
      let t1 := createPath M rng 0 0 (b.x : ℚ) (b.z : ℚ) (3/2) t
      if b.r = 0 then
        let doorZ := (b.z : ℚ) + (b.d : ℚ) / 2
        createPath M rng (b.x : ℚ) doorZ (b.x : ℚ) (doorZ + 4) 3 t1
      else
        let doorX := (b.x : ℚ) - (b.d : ℚ) / 2
        createPath M rng doorX (b.z : ℚ) (doorX - 4) (b.z : ℚ) 3 t1) s) := by
    refine foldl_preserves (WInv M) _ ?_ _ _ h
    intro t b ht
    have hc := createPath_winv M rng 0 0 (b.x : ℚ) (b.z : ℚ) (3/2) t ht
    by_cases hr : b.r = 0
    · simp only [hr, if_pos]
      exact createPath_winv M rng _ _ _ _ _ _ hc
    · simp only [if_neg hr]
      exact createPath_winv M rng _ _ _ _ _ _ hc
  exact createPath_winv M rng _ _ _ _ _ _
    (createPath_winv M rng _ _ _ _ _ _
      (createPath_winv M rng _ _ _ _ _ _
        (createPath_winv M rng _ _ _ _ _ _
          (createPath_winv M rng _ _ _ _ _ _
            (createPath_winv M rng _ _ _ _ _ _ h1)))))

theorem chimneyYs_nonneg (height : ℤ) (hh : 0 ≤ height) (y : ℚ)
    (hy : y ∈ chimneyYs height) : 0 ≤ y := by
  unfold chimneyYs at hy
  obtain ⟨k, hk, hkeq⟩ := List.mem_map.mp hy
  have hhq : (0 : ℚ) ≤ (height : ℚ) := by exact_mod_cast hh
  have hkq : (0 : ℚ) ≤ (k : ℚ) := Nat.cast_nonneg k
  rw [← hkeq]
  linarith

set_option maxHeartbeats 2000000 in
theorem buildHouse_winv (M : JsMath) (rng : ℕ → ℚ) (hv : ValidRng rng)
    (cx cz width depth height : ℤ) (rotation : ℕ) (hh : 0 ≤ height) (s : WGen)
    (h : WInv M s) :
    WInv M (buildHouse M rng cx cz width depth height rotation s) := by
  have hrngpos : ∀ n, (0 : ℚ) ≤ rng n := fun n => (hv n).1
  simp only [buildHouse]
  refine foldl_preserves_mem (WInv M) _ _ ?_ _ ?_
  · intro t y hy ht
    have hy0 : (0 : ℚ) ≤ y := chimneyYs_nonneg height hh y hy
    have hsm : ∀ n, (0 : ℚ) ≤ (0 : ℚ) + y + rng n * 2 := fun n => by
      have := hrngpos n
      linarith
    have hyb : (0 : ℚ) ≤ (0 : ℚ) + y := by linarith
    refine foldl_preserves (WInv M) _ (fun u cxv hu => ?_) _ _ ht
    refine foldl_preserves (WInv M) _ (fun w czv hw => ?_) _ _ hu
    dsimp only
    repeat' split
    all_goals first
      | exact hw
      | exact addVox_winv M _ _ _ _ _ _ (Or.inl (jsRound_nonneg _ (hsm _))) hw
      | exact addVox_winv M _ _ _ _ _ _ (Or.inl (jsRound_nonneg _ hyb)) hw
  · refine foldl_preserves_mem (fun (p : WGen × Bool) => WInv M p.1) _ _ ?_ (s, false) h
    intro p y hy hp
    have hy0 : (0 : ℤ) ≤ y := (mem_intRange.mp hy).1
    have hyq : (0 : ℚ) ≤ (0 : ℚ) + (y : ℚ) := by
      have hc : (0 : ℚ) ≤ (y : ℚ) := by exact_mod_cast hy0
      linarith
    refine foldl_preserves (fun (p : WGen × Bool) => WInv M p.1) _ (fun q x hq => ?_) _ _ hp
    refine foldl_preserves (fun (p : WGen × Bool) => WInv M p.1) _ (fun r z hr => ?_) _ _ hq
    dsimp only
    repeat' split
    all_goals first
      | exact hr
      | exact addVox_winv M _ _ _ _ _ _ (Or.inl (jsRound_nonneg _ hyq)) hr

theorem housesStage_winv (M : JsMath) (rng : ℕ → ℚ) (hv : ValidRng rng)
    (s : WGen) (h : WInv M s) : WInv M (housesStage M rng s) := by
  unfold housesStage
  refine foldl_preserves_mem (WInv M) _ _ ?_ _ h
  intro t b hb ht
  have hh : 0 ≤ b.h := by
    simp only [worldBuildings, List.mem_cons, List.not_mem_nil, or_false] at hb
    rcases hb with rfl | rfl | rfl | rfl <;> norm_num
  exact buildHouse_winv M rng hv _ _ _ _ _ _ hh _ ht

theorem trunkStage_winv (M : JsMath) (s : WGen) (h : WInv M s) :
    WInv M (trunkStage s) := by
  unfold trunkStage
  refine foldl_preserves_mem (WInv M) _ _ ?_ _ h
  intro t y hy ht
  have hy0 : (0 : ℤ) ≤ y := (mem_intRange.mp hy).1
  have hyq : (0 : ℚ) ≤ (0 : ℚ) + (y : ℚ) := by
    have hc : (0 : ℚ) ≤ (y : ℚ) := by exact_mod_cast hy0
    linarith
  refine foldl_preserves (WInv M) _ (fun u x hu => ?_) _ _ ht
  refine foldl_preserves (WInv M) _ (fun w z hw => ?_) _ _ hu
  dsimp only
  split
  · exact addVox_winv M _ _ _ _ _ _ (Or.inl (jsRound_nonneg _ hyq)) hw
  · exact hw

set_option maxHeartbeats 1000000 in
theorem canopyStage_winv (M : JsMath) (rng : ℕ → ℚ) (s : WGen) (h : WInv M s) :
    WInv M (canopyStage M rng s) := by
  unfold canopyStage
  refine foldl_preserves_mem (WInv M) _ _ ?_ _ h
  intro t y hy ht
  have hy0 : (8 : ℤ) ≤ y := (mem_intRange.mp hy).1
  have hyq : (0 : ℚ) ≤ (0 : ℚ) + (y : ℚ) := by
    have hc : (8 : ℚ) ≤ (y : ℚ) := by exact_mod_cast hy0
    linarith
  refine foldl_preserves (WInv M) _ (fun u x hu => ?_) _ _ ht
  refine foldl_preserves (WInv M) _ (fun w z hw => ?_) _ _ hu
  dsimp only
  by_cases hs : (worldCanopyRadius M (y : ℚ) - 3) * (worldCanopyRadius M (y : ℚ) - 3) <
      (x : ℚ) * (x : ℚ) + (z : ℚ) * (z : ℚ)
  · simp only [if_pos hs]
    repeat' split
    all_goals first
      | exact hw
      | exact addVox_winv M _ _ _ _ _ _ (Or.inl (jsRound_nonneg _ hyq)) hw
  · simp only [if_neg hs]
    repeat' split
    all_goals first
      | exact hw
      | exact addVox_winv M _ _ _ _ _ _ (Or.inl (jsRound_nonneg _ hyq)) hw

theorem starStage_winv (M : JsMath) (s : WGen) (h : WInv M s) :
    WInv M (starStage s) := by
  unfold starStage
  dsimp only
  refine foldl_preserves_mem (WInv M) _ _ ?_ _ ?_
  · intro t dir hdir ht
    refine foldl_preserves_mem (WInv M) _ _ ?_ _ ht
    intro u i hi hu
    simp only [starDirections, List.mem_cons, List.not_mem_nil, or_false] at hdir
    rcases hdir with rfl | rfl | rfl | rfl | rfl | rfl | rfl | rfl | rfl | rfl <;>
    · have hib := mem_intRange.mp hi
      norm_num at hib
      refine addVox_winv M _ _ _ _ _ _ (Or.inl ?_) hu
      show (0 : ℤ) ≤ jsRound _
      rw [jsRound_intCast]
      dsimp only
      omega
  · refine foldl_preserves_mem (WInv M) _ _ ?_ _ h
    intro t x hx ht
    refine foldl_preserves_mem (WInv M) _ _ ?_ _ ht
    intro u y hy hu
    refine foldl_preserves_mem (WInv M) _ _ ?_ _ hu
    intro w z hz hw
    have hyb := mem_intRange.mp hy
    split
    · refine addVox_winv M _ _ _ _ _ _ (Or.inl ?_) hw
      show (0 : ℤ) ≤ jsRound _
      rw [jsRound_intCast]
      omega
    · exact hw

theorem pcoord_deep (M : JsMath) (x y z : ℤ) (h : y ≤ -7) :
    PCoord M (jsRound (x : ℚ), jsRound (y : ℚ), jsRound (z : ℚ)) := by
  refine Or.inr (Or.inr ?_)
  simp only [jsRound_intCast]
  exact h

theorem pcoord_notice (M : JsMath) (x y z : ℤ) (h : ¬ iceCond M x z) :
    PCoord M (jsRound (x : ℚ), jsRound (y : ℚ), jsRound (z : ℚ)) := by
  refine Or.inr (Or.inl ?_)
  simp only [jsRound_intCast]
  exact h

theorem winv_pushIce (M : JsMath) (t : WGen) (x y z : ℤ) (hy : y = -2)
    (hc : iceCond M x z) (hfr : ∀ v ∈ t.interactiveIce, (v.x, v.z) ≠ (x, z))
    (h : WInv M t) :
    WInv M { t with interactiveIce := t.interactiveIce ++ [⟨x, y, z, PALETTE_ICE⟩] } := by
  obtain ⟨h1, h2, h3, h4, h5, h6, h7⟩ := h
  refine ⟨h1, h2, h3, ?_, h5, ?_, h7⟩
  · intro v hv
    rcases List.mem_append.mp hv with hv' | hv'
    · exact h4 v hv'
    · simp only [List.mem_singleton] at hv'
      subst hv'
      exact ⟨hy, hc⟩
  · rw [List.map_append]
    refine (List.Perm.nodup_iff (List.perm_append_singleton _ _)).mpr ?_
    refine List.nodup_cons.mpr ⟨?_, h6⟩
    intro hmem
    rcases List.mem_map.mp hmem with ⟨v, hv, hveq⟩
    exact hfr v hv hveq

theorem winv_pushWater (M : JsMath) (t : WGen) (x y z : ℤ) (hy : y = -6)
    (hc : iceCond M x z) (hfr : ∀ v ∈ t.waterVoxels, (v.x, v.z) ≠ (x, z))
    (h : WInv M t) :
    WInv M { t with waterVoxels := t.waterVoxels ++ [⟨x, y, z, PALETTE_WATER⟩] } := by
  obtain ⟨h1, h2, h3, h4, h5, h6, h7⟩ := h
  refine ⟨h1, h2, h3, h4, ?_, h6, ?_⟩
  · intro v hv
    rcases List.mem_append.mp hv with hv' | hv'
    · exact h5 v hv'
    · simp only [List.mem_singleton] at hv'
      subst hv'
      exact ⟨hy, hc⟩
  · rw [List.map_append]
    refine (List.Perm.nodup_iff (List.perm_append_singleton _ _)).mpr ?_
    refine List.nodup_cons.mpr ⟨?_, h7⟩
    intro hmem
    rcases List.mem_map.mp hmem with ⟨v, hv, hveq⟩
    exact hfr v hv hveq

theorem colStep_ice (M : JsMath) (rng : ℕ → ℚ) (x z sy by_ : ℤ) (sc : ℕ)
    (iceS isP : Bool) (t : WGen) (y : ℤ) :
    (colStep M rng x z sy by_ sc iceS isP t y).interactiveIce = t.interactiveIce ∨
    (y = -2 ∧ iceS = true ∧
      (colStep M rng x z sy by_ sc iceS isP t y).interactiveIce =
        t.interactiveIce ++ [⟨x, y, z, PALETTE_ICE⟩]) := by
  unfold colStep
  dsimp only
  repeat' split
  all_goals first
    | exact Or.inr ⟨by assumption, by assumption, rfl⟩
    | exact Or.inl rfl
    | exact Or.inl (addVox_ice_water _ _ _ _ _ _).1

theorem colStep_water (M : JsMath) (rng : ℕ → ℚ) (x z sy by_ : ℤ) (sc : ℕ)
    (iceS isP : Bool) (t : WGen) (y : ℤ) :
    (colStep M rng x z sy by_ sc iceS isP t y).waterVoxels = t.waterVoxels ∨
    (y = -6 ∧ iceS = true ∧
      (colStep M rng x z sy by_ sc iceS isP t y).waterVoxels =
        t.waterVoxels ++ [⟨x, y, z, PALETTE_WATER⟩]) := by
  unfold colStep
  dsimp only
  repeat' split
  all_goals first
    | exact Or.inr ⟨by assumption, by assumption, rfl⟩
    | exact Or.inl rfl
    | exact Or.inl (addVox_ice_water _ _ _ _ _ _).2

theorem colStep_winv (M : JsMath) (rng : ℕ → ℚ) (x z sy by_ : ℤ) (sc : ℕ)
    (iceS isP : Bool)
    (hi : iceS = true → iceCond M x z)
    (hni : iceS ≠ true → ¬ iceCond M x z)
    (t : WGen) (y : ℤ) (ht : WInv M t)
    (hfr2 : y = -2 → ∀ v ∈ t.interactiveIce, (v.x, v.z) ≠ (x, z))
    (hfr6 : y = -6 → ∀ v ∈ t.waterVoxels, (v.x, v.z) ≠ (x, z)) :
    WInv M (colStep M rng x z sy by_ sc iceS isP t y) := by
  unfold colStep
  dsimp only
  repeat' split
  all_goals first
    | exact ht
    | exact winv_pushIce M t x y z (by assumption) (hi (by assumption))
        (hfr2 (by assumption)) ht
    | exact winv_pushWater M t x y z (by assumption) (hi (by assumption))
        (hfr6 (by assumption)) ht
    | exact addVox_winv M _ _ _ _ _ _ (pcoord_deep M x y z (by omega)) ht
    | exact addVox_winv M _ _ _ _ _ _ (pcoord_notice M x y z (hni (by assumption))) ht

theorem colStep_fold_winv (M : JsMath) (rng : ℕ → ℚ) (x z sy by_ : ℤ) (sc : ℕ)
    (iceS isP : Bool)
    (hi : iceS = true → iceCond M x z)
    (hni : iceS ≠ true → ¬ iceCond M x z) :
    ∀ (l : List ℤ), l.Nodup → ∀ t, WInv M t →
    ((-2 : ℤ) ∈ l → ∀ v ∈ t.interactiveIce, (v.x, v.z) ≠ (x, z)) →
    ((-6 : ℤ) ∈ l → ∀ v ∈ t.waterVoxels, (v.x, v.z) ≠ (x, z)) →
    WInv M (l.foldl (colStep M rng x z sy by_ sc iceS isP) t) ∧
    (∀ v ∈ (l.foldl (colStep M rng x z sy by_ sc iceS isP) t).interactiveIce,
      v ∈ t.interactiveIce ∨ (v.x, v.z) = (x, z)) ∧
    (∀ v ∈ (l.foldl (colStep M rng x z sy by_ sc iceS isP) t).waterVoxels,
      v ∈ t.waterVoxels ∨ (v.x, v.z) = (x, z)) := by
  intro l
  induction l with
  | nil =>
      intro _ t ht _ _
      exact ⟨ht, fun v hv => Or.inl hv, fun v hv => Or.inl hv⟩
  | cons y ys ih =>
      intro hnd t ht hfr2 hfr6
      obtain ⟨hy, hysnd⟩ := List.nodup_cons.mp hnd
      have hstep : WInv M (colStep M rng x z sy by_ sc iceS isP t y) :=
        colStep_winv M rng x z sy by_ sc iceS isP hi hni t y ht
          (fun he => hfr2 (he ▸ List.mem_cons_self _ _))
          (fun he => hfr6 (he ▸ List.mem_cons_self _ _))
      have hice := colStep_ice M rng x z sy by_ sc iceS isP t y
      have hwater := colStep_water M rng x z sy by_ sc iceS isP t y
      have hicemem : ∀ v ∈ (colStep M rng x z sy by_ sc iceS isP t y).interactiveIce,
          v ∈ t.interactiveIce ∨ (v.x, v.z) = (x, z) := by
        intro v hv
        rcases hice with heq | ⟨_, _, heq⟩
        · exact Or.inl (heq ▸ hv)
        · rw [heq] at hv
          rcases List.mem_append.mp hv with hv' | hv'
          · exact Or.inl hv'
          · simp only [List.mem_singleton] at hv'
            subst hv'
            exact Or.inr rfl
      have hwatermem : ∀ v ∈ (colStep M rng x z sy by_ sc iceS isP t y).waterVoxels,
          v ∈ t.waterVoxels ∨ (v.x, v.z) = (x, z) := by
        intro v hv
        rcases hwater with heq | ⟨_, _, heq⟩
        · exact Or.inl (heq ▸ hv)
        · rw [heq] at hv
          rcases List.mem_append.mp hv with hv' | hv'
          · exact Or.inl hv'
          · simp only [List.mem_singleton] at hv'
            subst hv'
            exact Or.inr rfl
      have hfr2' : (-2 : ℤ) ∈ ys →
          ∀ v ∈ (colStep M rng x z sy by_ sc iceS isP t y).interactiveIce,
            (v.x, v.z) ≠ (x, z) := by
        intro hmem v hv
        have hyne : y ≠ -2 := fun he => hy (he ▸ hmem)
        rcases hice with heq | ⟨he2, _, _⟩
        · exact hfr2 (List.mem_cons_of_mem _ hmem) v (heq ▸ hv)
        · exact absurd he2 hyne
      have hfr6' : (-6 : ℤ) ∈ ys →
          ∀ v ∈ (colStep M rng x z sy by_ sc iceS isP t y).waterVoxels,
            (v.x, v.z) ≠ (x, z) := by
        intro hmem v hv
        have hyne : y ≠ -6 := fun he => hy (he ▸ hmem)
        rcases hwater with heq | ⟨he6, _, _⟩
        · exact hfr6 (List.mem_cons_of_mem _ hmem) v (heq ▸ hv)
        · exact absurd he6 hyne
      obtain ⟨hw, himem, hwmem⟩ := ih hysnd _ hstep hfr2' hfr6'
      refine ⟨hw, ?_, ?_⟩
      · intro v hv
        rcases himem v hv with hv' | hv'
        · exact hicemem v hv'
        · exact Or.inr hv'
      · intro v hv
        rcases hwmem v hv with hv' | hv'
        · exact hwatermem v hv'
        · exact Or.inr hv'

theorem processColumn_winv (M : JsMath) (rng : ℕ → ℚ) (s : WGen) (col : ℤ × ℤ)
    (h : WInv M s)
    (hfr2 : ∀ v ∈ s.interactiveIce, (v.x, v.z) ≠ col)
    (hfr6 : ∀ v ∈ s.waterVoxels, (v.x, v.z) ≠ col) :
    WInv M (processColumn M rng s col) ∧
    (∀ v ∈ (processColumn M rng s col).interactiveIce,
      v ∈ s.interactiveIce ∨ (v.x, v.z) = col) ∧
    (∀ v ∈ (processColumn M rng s col).waterVoxels,
      v ∈ s.waterVoxels ∨ (v.x, v.z) = col) := by
  unfold processColumn
  dsimp only
  split_ifs with h90 hpond hicec hpath hnz
  · exact ⟨h, fun v hv => Or.inl hv, fun v hv => Or.inl hv⟩
  · dsimp only
    exact colStep_fold_winv M rng col.1 col.2 _ _ _ _ _
      (fun _ => hicec) (fun hn => absurd rfl hn) _ (intRange_nodup _ _) s h
      (fun _ => hfr2) (fun _ => hfr6)
  · dsimp only
    exact colStep_fold_winv M rng col.1 col.2 _ _ _ false _
      (fun he => nomatch he) (fun _ => hicec) _
      (intRange_nodup _ _) s h (fun _ => hfr2) (fun _ => hfr6)
  · dsimp only
    refine colStep_fold_winv M rng col.1 col.2 _ _ _ false _
      (fun he => nomatch he) ?_ _
      (intRange_nodup _ _) s h (fun _ => hfr2) (fun _ => hfr6)
    intro _ hc
    simp only [iceCond] at hc
    exact hpond (by linarith)
  · dsimp only
    refine colStep_fold_winv M rng col.1 col.2 _ _ _ false _
      (fun he => nomatch he) ?_ _
      (intRange_nodup _ _) _ h (fun _ => hfr2) (fun _ => hfr6)
    intro _ hc
    simp only [iceCond] at hc
    exact hpond (by linarith)
  · dsimp only
    refine colStep_fold_winv M rng col.1 col.2 _ _ _ false _
      (fun he => nomatch he) ?_ _
      (intRange_nodup _ _) _ h (fun _ => hfr2) (fun _ => hfr6)
    intro _ hc
    simp only [iceCond] at hc
    exact hpond (by linarith)

theorem terrain_fold_winv (M : JsMath) (rng : ℕ → ℚ) :
    ∀ (l : List (ℤ × ℤ)), l.Nodup → ∀ s, WInv M s →
    (∀ v ∈ s.interactiveIce, (v.x, v.z) ∉ l) →
    (∀ v ∈ s.waterVoxels, (v.x, v.z) ∉ l) →
    WInv M (l.foldl (processColumn M rng) s) := by
  intro l
  induction l with
  | nil => intro _ s h _ _; exact h
  | cons c cs ih =>
      intro hnd s h hice hwater
      obtain ⟨hc, hcs⟩ := List.nodup_cons.mp hnd
      obtain ⟨hw', hice', hwater'⟩ := processColumn_winv M rng s c h
        (fun v hv he => hice v hv (he ▸ List.mem_cons_self _ _))
        (fun v hv he => hwater v hv (he ▸ List.mem_cons_self _ _))
      refine ih hcs _ hw' ?_ ?_
      · intro v hv hmem
        rcases hice' v hv with hold | hcol
        · exact hice v hold (List.mem_cons_of_mem _ hmem)
        · exact hc (hcol ▸ hmem)
      · intro v hv hmem
        rcases hwater' v hv with hold | hcol
        · exact hwater v hold (List.mem_cons_of_mem _ hmem)
        · exact hc (hcol ▸ hmem)

theorem worldCols_nodup : worldCols.Nodup := by
  unfold worldCols
  rw [List.nodup_bind]
  constructor
  · intro x hx
    refine List.Nodup.map ?_ (intRange_nodup _ _)
    intro a b hab
    exact ((Prod.mk.injEq _ _ _ _).mp hab).2
  · refine List.Pairwise.imp ?_ (intRange_nodup (-90) 90)
    intro a b hab p hpa hpb
    rcases List.mem_map.mp hpa with ⟨za, _, hza⟩
    rcases List.mem_map.mp hpb with ⟨zb, _, hzb⟩
    apply hab
    have := hza.trans hzb.symm
    exact ((Prod.mk.injEq _ _ _ _).mp this).1

theorem terrainStage_winv (M : JsMath) (rng : ℕ → ℚ) (s : WGen) (h : WInv M s)
    (hice : s.interactiveIce = []) (hwater : s.waterVoxels = []) :
    WInv M (terrainStage M rng s) := by
  unfold terrainStage
  refine terrain_fold_winv M rng worldCols worldCols_nodup s h ?_ ?_
  · intro v hv
    rw [hice] at hv
    exact absurd hv (List.not_mem_nil _)
  · intro v hv
    rw [hwater] at hv
    exact absurd hv (List.not_mem_nil _)

theorem addVox_iw (x y z : ℚ) (c : ℕ) (g : Bool) (s : WGen) (h : IW s) :
    IW (addVox x y z c g s) :=
  ⟨(addVox_ice_water x y z c g s).1.trans h.1,
   (addVox_ice_water x y z c g s).2.trans h.2⟩

theorem iw_lampCoords (s : WGen) (l : List WPoint) (h : IW s) :
    IW { s with lampCoords := l } := h

theorem buildLamp_iw (x y z : ℚ) (s : WGen) (h : IW s) : IW (buildLamp x y z s) := by
  have h1 : IW ((List.range 9).foldl
      (fun t (k : ℕ) => addVox x (y + (k : ℚ)) z PALETTE_LAMP_POST false t) s) := by
    refine foldl_preserves IW _ ?_ _ _ h
    intro t k ht
    exact addVox_iw _ _ _ _ _ t ht
  have h2 := addVox_iw x (y + 9 - 1) z PALETTE_LAMP_POST false _ h1
  have h3 := addVox_iw x (y + 9 - 1 + 1/2) z PALETTE_LAMP_POST false _ h2
  have h4 := addVox_iw x (y + 9 - 1 - 1/2) (z + 3/5) PALETTE_LAMP_POST false _ h3
  have h5 := addVox_iw x (y + 9 - 1 - 1/2) (z - 3/5) PALETTE_LAMP_POST false _ h4
  have h6 := addVox_iw (x + 3/5) (y + 9 - 1 - 1/2) z PALETTE_LAMP_POST false _ h5
  have h7 := addVox_iw (x - 3/5) (y + 9 - 1 - 1/2) z PALETTE_LAMP_POST false _ h6
  have h8 := addVox_iw x (y + 9 - 1 - 1/2) z PALETTE_LAMP_WARM true _ h7
  exact iw_lampCoords _ _ h8

theorem createPath_iw (M : JsMath) (rng : ℕ → ℚ) (x1 z1 x2 z2 wo : ℚ)
    (s : WGen) (h : IW s) : IW (createPath M rng x1 z1 x2 z2 wo s) := by
  simp only [createPath]
  split
  · refine foldl_preserves IW _ (fun t i ht => ?_) _ _ ?_
    · exact buildLamp_iw _ 0 _ _ ht
    · refine foldl_preserves IW _ (fun t i ht => ?_) _ _ h
      refine foldl_preserves IW _ (fun u ox hu => ?_) _ _ ht
      refine foldl_preserves IW _ (fun v oz hv => ?_) _ _ hu
      exact hv
  · refine foldl_preserves IW _ (fun t i ht => ?_) _ _ h
    refine foldl_preserves IW _ (fun u ox hu => ?_) _ _ ht
    refine foldl_preserves IW _ (fun v oz hv => ?_) _ _ hu
    exact hv

theorem pathsStage_iw (M : JsMath) (rng : ℕ → ℚ) (s : WGen) (h : IW s) :
    IW (pathsStage M rng s) := by
  unfold pathsStage
  have h1 : IW (worldBuildings.foldl (fun t b =>
      let t1 := createPath M rng 0 0 (b.x : ℚ) (b.z : ℚ) (3/2) t
      if b.r = 0 then
        let doorZ := (b.z : ℚ) + (b.d : ℚ) / 2
        createPath M rng (b.x : ℚ) doorZ (b.x : ℚ) (doorZ + 4) 3 t1
      else
        let doorX := (b.x : ℚ) - (b.d : ℚ) / 2
        createPath M rng doorX (b.z : ℚ) (doorX - 4) (b.z : ℚ) 3 t1) s) := by
    refine foldl_preserves IW _ ?_ _ _ h
    intro t b ht
    have hc := createPath_iw M rng 0 0 (b.x : ℚ) (b.z : ℚ) (3/2) t ht
    by_cases hr : b.r = 0
    · simp only [hr, if_pos]
      exact createPath_iw M rng _ _ _ _ _ _ hc
    · simp only [if_neg hr]
      exact createPath_iw M rng _ _ _ _ _ _ hc
  exact createPath_iw M rng _ _ _ _ _ _
    (createPath_iw M rng _ _ _ _ _ _
      (createPath_iw M rng _ _ _ _ _ _
        (createPath_iw M rng _ _ _ _ _ _
          (createPath_iw M rng _ _ _ _ _ _
            (createPath_iw M rng _ _ _ _ _ _ h1)))))

set_option maxHeartbeats 1000000 in
theorem buildHouse_iw (M : JsMath) (rng : ℕ → ℚ) (cx cz width depth height : ℤ)
    (rotation : ℕ) (s : WGen) (h : IW s) :
    IW (buildHouse M rng cx cz width depth height rotation s) := by
  simp only [buildHouse]
  refine foldl_preserves IW _ ?_ _ _ ?_
  · intro t y ht
    refine foldl_preserves IW _ (fun u cxv hu => ?_) _ _ ht
    refine foldl_preserves IW _ (fun w czv hw => ?_) _ _ hu
    dsimp only
    repeat' split
    all_goals first
      | exact hw
      | exact addVox_iw _ _ _ _ _ _ hw
  · refine foldl_preserves (fun (p : WGen × Bool) => IW p.1) _ ?_ _ (s, false) h
    intro p y hp
    refine foldl_preserves (fun (p : WGen × Bool) => IW p.1) _ (fun q x hq => ?_) _ _ hp
    refine foldl_preserves (fun (p : WGen × Bool) => IW p.1) _ (fun r z hr => ?_) _ _ hq
    dsimp only
    repeat' split
    all_goals first
      | exact hr
      | exact addVox_iw _ _ _ _ _ _ hr

theorem housesStage_iw (M : JsMath) (rng : ℕ → ℚ) (s : WGen) (h : IW s) :
    IW (housesStage M rng s) := by
  unfold housesStage
  refine foldl_preserves IW _ ?_ _ _ h
  intro t b ht
  exact buildHouse_iw M rng _ _ _ _ _ _ _ ht

theorem worldInit_winv (M : JsMath) : WInv M worldInit := by
  simp [WInv, worldInit]

theorem generateWorld_winv (M : JsMath) (rng : ℕ → ℚ) (hv : ValidRng rng) :
    WInv M (generateWorld M rng) := by
  unfold generateWorld
  have h1 := pathsStage_winv M rng _ (worldInit_winv M)
  have h2 := housesStage_winv M rng hv _ h1
  have hiw : IW (housesStage M rng (pathsStage M rng worldInit)) :=
    housesStage_iw M rng _ (pathsStage_iw M rng _ ⟨rfl, rfl⟩)
  have h3 := terrainStage_winv M rng _ h2 hiw.1 hiw.2
  have h4 := trunkStage_winv M _ h3
  have h5 := canopyStage_winv M rng _ h4
  exact starStage_winv M _ h5

theorem addVox_ice_mem (x y z : ℚ) (c : ℕ) (g : Bool) (s : WGen)
    (v : VoxelData) (hv : v ∈ s.interactiveIce) :
    v ∈ (addVox x y z c g s).interactiveIce := by
  rw [(addVox_ice_water x y z c g s).1]
  exact hv

theorem trunkStage_ice_mem (s : WGen) (v : VoxelData) (hv : v ∈ s.interactiveIce) :
    v ∈ (trunkStage s).interactiveIce := by
  unfold trunkStage
  refine foldl_preserves (fun (t : WGen) => v ∈ t.interactiveIce) _ ?_ _ _ hv
  intro t y ht
  refine foldl_preserves (fun (t : WGen) => v ∈ t.interactiveIce) _ (fun u x hu => ?_) _ _ ht
  refine foldl_preserves (fun (t : WGen) => v ∈ t.interactiveIce) _ (fun w z hw => ?_) _ _ hu
  dsimp only
  split
  · exact addVox_ice_mem _ _ _ _ _ _ _ hw
  · exact hw

set_option maxHeartbeats 1000000 in
theorem canopyStage_ice_mem (M : JsMath) (rng : ℕ → ℚ) (s : WGen) (v : VoxelData)
    (hv : v ∈ s.interactiveIce) : v ∈ (canopyStage M rng s).interactiveIce := by
  unfold canopyStage
  refine foldl_preserves (fun (t : WGen) => v ∈ t.interactiveIce) _ ?_ _ _ hv
  intro t y ht
  refine foldl_preserves (fun (t : WGen) => v ∈ t.interactiveIce) _ (fun u x hu => ?_) _ _ ht
  refine foldl_preserves (fun (t : WGen) => v ∈ t.interactiveIce) _ (fun w z hw => ?_) _ _ hu
  dsimp only
  by_cases hs : (worldCanopyRadius M (y : ℚ) - 3) * (worldCanopyRadius M (y : ℚ) - 3) <
      (x : ℚ) * (x : ℚ) + (z : ℚ) * (z : ℚ)
  · simp only [if_pos hs]
    repeat' split
    all_goals first
      | exact hw
      | exact addVox_ice_mem _ _ _ _ _ _ _ hw
  · simp only [if_neg hs]
    repeat' split
    all_goals first
      | exact hw
      | exact addVox_ice_mem _ _ _ _ _ _ _ hw

theorem starStage_ice_mem (s : WGen) (v : VoxelData) (hv : v ∈ s.interactiveIce) :
    v ∈ (starStage s).interactiveIce := by
  unfold starStage
  dsimp only
  refine foldl_preserves (fun (t : WGen) => v ∈ t.interactiveIce) _ ?_ _ _ ?_
  · intro t dir ht
    refine foldl_preserves (fun (t : WGen) => v ∈ t.interactiveIce) _ (fun u i hu => ?_) _ _ ht
    exact addVox_ice_mem _ _ _ _ _ _ _ hu
  · refine foldl_preserves (fun (t : WGen) => v ∈ t.interactiveIce) _ ?_ _ _ hv
    intro t x ht
    refine foldl_preserves (fun (t : WGen) => v ∈ t.interactiveIce) _ (fun u y hu => ?_) _ _ ht
    refine foldl_preserves (fun (t : WGen) => v ∈ t.interactiveIce) _ (fun w z hw => ?_) _ _ hu
    dsimp only
    split
    · exact addVox_ice_mem _ _ _ _ _ _ _ hw
    · exact hw

theorem colStep_ice_mono (M : JsMath) (rng : ℕ → ℚ) (x z sy by_ : ℤ) (sc : ℕ)
    (iceS isP : Bool) (t : WGen) (y : ℤ) (v : VoxelData)
    (hv : v ∈ t.interactiveIce) :
    v ∈ (colStep M rng x z sy by_ sc iceS isP t y).interactiveIce := by
  rcases colStep_ice M rng x z sy by_ sc iceS isP t y with heq | ⟨_, _, heq⟩
  · rw [heq]; exact hv
  · rw [heq]; exact List.mem_append_left _ hv

theorem colStep_push_ice (M : JsMath) (rng : ℕ → ℚ) (x z sy by_ : ℤ) (sc : ℕ)
    (isP : Bool) (t : WGen) :
    (⟨x, -2, z, PALETTE_ICE⟩ : VoxelData) ∈
      (colStep M rng x z sy by_ sc true isP t (-2)).interactiveIce := by
  unfold colStep
  rw [if_pos rfl, if_pos rfl]
  exact List.mem_append_right _ (List.mem_singleton.mpr rfl)

theorem colStep_fold_ice_push (M : JsMath) (rng : ℕ → ℚ) (x z sy by_ : ℤ)
    (sc : ℕ) (isP : Bool) :
    ∀ (l : List ℤ) (t : WGen), (-2 : ℤ) ∈ l →
    (⟨x, -2, z, PALETTE_ICE⟩ : VoxelData) ∈
      (l.foldl (colStep M rng x z sy by_ sc true isP) t).interactiveIce := by
  intro l
  induction l with
  | nil => intro t h; exact absurd h (List.not_mem_nil _)
  | cons y ys ih =>
      intro t hmem
      rcases List.mem_cons.mp hmem with hy | hy
      · subst hy
        simp only [List.foldl_cons]
        refine foldl_preserves
          (fun (t : WGen) => (⟨x, -2, z, PALETTE_ICE⟩ : VoxelData) ∈ t.interactiveIce) _
          (fun t' y' ht' => colStep_ice_mono M rng x z sy by_ sc true isP t' y' _ ht')
          _ _ ?_
        exact colStep_push_ice M rng x z sy by_ sc isP t
      · simp only [List.foldl_cons]
        exact ih _ hy

theorem processColumn_ice_mono (M : JsMath) (rng : ℕ → ℚ) (s : WGen)
    (col : ℤ × ℤ) (v : VoxelData) (hv : v ∈ s.interactiveIce) :
    v ∈ (processColumn M rng s col).interactiveIce := by
  unfold processColumn
  dsimp only
  split_ifs with h90 hpond hicec hpath hnz
  all_goals first
    | exact hv
    | exact foldl_preserves (fun (t : WGen) => v ∈ t.interactiveIce) _
        (fun t y ht => colStep_ice_mono M rng col.1 col.2 _ _ _ _ _ t y v ht) _ _ hv

theorem floor_sub_max_le (q : ℚ) : ⌊((-2 : ℤ) : ℚ) - max 5 q⌋ ≤ (-2 : ℤ) := by
  have h1 : ((-2 : ℤ) : ℚ) - max 5 q ≤ -7 := by
    have := le_max_left (5 : ℚ) q
    push_cast
    linarith
  have h2 : (⌊((-2 : ℤ) : ℚ) - max 5 q⌋ : ℤ) ≤ ⌊(-7 : ℚ)⌋ := Int.floor_le_floor h1
  have h3 : (⌊(-7 : ℚ)⌋ : ℤ) = -7 := by norm_num
  omega

theorem processColumn_pond_push (M : JsMath) (rng : ℕ → ℚ) (s : WGen)
    (h90 : ¬ (90 : ℚ) < M.sqrt ((((-35 : ℤ) : ℚ)) * (((-35 : ℤ) : ℚ)) +
      (((35 : ℤ) : ℚ)) * (((35 : ℤ) : ℚ))))
    (hic : M.sqrt ((((-35 : ℤ) : ℚ) - (-35))^2 + (((35 : ℤ) : ℚ) - 35)^2) < 18 - 2) :
    (⟨-35, -2, 35, PALETTE_ICE⟩ : VoxelData) ∈
      (processColumn M rng s ((-35 : ℤ), (35 : ℤ))).interactiveIce := by
  unfold processColumn
  dsimp only
  split_ifs with h1 h2 h3
  · dsimp only
    exact colStep_fold_ice_push M rng (-35) 35 _ _ _ _ _ _
      (mem_intRange.mpr ⟨floor_sub_max_le _, le_refl _⟩)
  · exact absurd (lt_trans hic (by norm_num)) h1
  · exact absurd (lt_trans hic (by norm_num)) h1
  · exact absurd (lt_trans hic (by norm_num)) h1

theorem terrain_fold_ice_push (M : JsMath) (rng : ℕ → ℚ)
    (h90 : ¬ (90 : ℚ) < M.sqrt ((((-35 : ℤ) : ℚ)) * (((-35 : ℤ) : ℚ)) +
      (((35 : ℤ) : ℚ)) * (((35 : ℤ) : ℚ))))
    (hic : M.sqrt ((((-35 : ℤ) : ℚ) - (-35))^2 + (((35 : ℤ) : ℚ) - 35)^2) < 18 - 2) :
    ∀ (l : List (ℤ × ℤ)) (s : WGen), ((-35 : ℤ), (35 : ℤ)) ∈ l →
    (⟨-35, -2, 35, PALETTE_ICE⟩ : VoxelData) ∈
      (l.foldl (processColumn M rng) s).interactiveIce := by
  intro l
  induction l with
  | nil => intro s h; exact absurd h (List.not_mem_nil _)
  | cons c cs ih =>
      intro s hmem
      rcases List.mem_cons.mp hmem with hc | hc
      · subst hc
        simp only [List.foldl_cons]
        refine foldl_preserves
          (fun (t : WGen) => (⟨-35, -2, 35, PALETTE_ICE⟩ : VoxelData) ∈ t.interactiveIce) _
          (fun t col ht => processColumn_ice_mono M rng t col _ ht) _ _ ?_
        exact processColumn_pond_push M rng s h90 hic
      · simp only [List.foldl_cons]
        exact ih _ hc

theorem pond_center_mem_worldCols : ((-35 : ℤ), (35 : ℤ)) ∈ worldCols := by
  unfold worldCols
  rw [List.mem_bind]
  refine ⟨-35, mem_intRange.mpr (by norm_num), ?_⟩
  rw [List.mem_map]
  exact ⟨35, mem_intRange.mpr (by norm_num), rfl⟩

theorem pond_vox_in_world :
    (⟨-35, -2, 35, PALETTE_ICE⟩ : VoxelData) ∈ (generateWorld M0 rng0).interactiveIce := by
  unfold generateWorld
  apply starStage_ice_mem
  apply canopyStage_ice_mem
  apply trunkStage_ice_mem
  unfold terrainStage
  refine terrain_fold_ice_push M0 rng0 ?_ ?_ worldCols _ pond_center_mem_worldCols
  · norm_num [M0]
  · norm_num [M0]

theorem not_pcoord_ice (M : JsMath) (c : ℤ × ℤ × ℤ) (hy : c.2.1 = -2)
    (hc : iceCond M c.1 c.2.2) : ¬ PCoord M c := by
  intro h
  rcases h with h | h | h
  · omega
  · exact h hc
  · omega

theorem not_pcoord_water (M : JsMath) (c : ℤ × ℤ × ℤ) (hy : c.2.1 = -6)
    (hc : iceCond M c.1 c.2.2) : ¬ PCoord M c := by
  intro h
  rcases h with h | h | h
  · omega
  · exact h hc
  · omega

theorem winv_combined (M : JsMath) (s : WGen) (h : WInv M s) :
    (combinedCoords s).Nodup ∧
    (∀ c ∈ (s.regular ++ s.glowing).map coordOf, c ∈ s.occupied) ∧
    (∀ v ∈ s.interactiveIce, coordOf v ∉ s.occupied) ∧
    (∀ v ∈ s.waterVoxels, coordOf v ∉ s.occupied) := by
  obtain ⟨h1, h2, h3, h4, h5, h6, h7⟩ := h
  have hBnodup : (s.interactiveIce.map coordOf).Nodup := by
    refine List.Nodup.of_map (fun c => (c.1, c.2.2)) ?_
    rw [List.map_map]
    exact h6
  have hCnodup : (s.waterVoxels.map coordOf).Nodup := by
    refine List.Nodup.of_map (fun c => (c.1, c.2.2)) ?_
    rw [List.map_map]
    exact h7
  have hBice : ∀ c ∈ s.interactiveIce.map coordOf, c.2.1 = -2 ∧ iceCond M c.1 c.2.2 := by
    intro c hc
    rcases List.mem_map.mp hc with ⟨v, hv, rfl⟩
    exact ⟨(h4 v hv).1, (h4 v hv).2⟩
  have hCwater : ∀ c ∈ s.waterVoxels.map coordOf, c.2.1 = -6 ∧ iceCond M c.1 c.2.2 := by
    intro c hc
    rcases List.mem_map.mp hc with ⟨v, hv, rfl⟩
    exact ⟨(h5 v hv).1, (h5 v hv).2⟩
  have hiceNotOcc : ∀ v ∈ s.interactiveIce, coordOf v ∉ s.occupied := by
    intro v hv hmem
    exact not_pcoord_ice M (coordOf v) (h4 v hv).1 (h4 v hv).2 (h3 _ hmem)
  have hwaterNotOcc : ∀ v ∈ s.waterVoxels, coordOf v ∉ s.occupied := by
    intro v hv hmem
    exact not_pcoord_water M (coordOf v) (h5 v hv).1 (h5 v hv).2 (h3 _ hmem)
  refine ⟨?_, h2, hiceNotOcc, hwaterNotOcc⟩
  unfold combinedCoords
  rw [List.nodup_append, List.nodup_append]
  refine ⟨⟨h1, hBnodup, ?_⟩, hCnodup, ?_⟩
  · intro c hcA hcB
    exact not_pcoord_ice M c (hBice c hcB).1 (hBice c hcB).2 (h3 c (h2 c hcA))
  · intro c hcAB hcC
    rcases List.mem_append.mp hcAB with hcA | hcB
    · exact not_pcoord_water M c (hCwater c hcC).1 (hCwater c hcC).2 (h3 c (h2 c hcA))
    · have hB := (hBice c hcB).1
      have hC := (hCwater c hcC).1
      omega

/-- **C8 (counterexample).**  The claim's mechanism — "every voxel emission
passes through one occupancy-checked insertion" — fails: in the concrete run
with all `Math` functions interpreted as 0 and the all-zero random stream, the
pond column (−35, 35) emits the interactive-ice voxel at (−35, −2, 35), yet
that cell was never registered in the occupancy set (an `add`-mediated
emission always registers its cell).  The ice and water pushes of the terrain
loop bypass `add` entirely. -/
theorem generateWorld_bypass_counterexample :
    ∃ v ∈ (generateWorld M0 rng0).interactiveIce,
      coordOf v ∉ (generateWorld M0 rng0).occupied := by
  refine ⟨⟨-35, -2, 35, PALETTE_ICE⟩, pond_vox_in_world, ?_⟩
  intro hmem
  have hw := generateWorld_winv M0 rng0 validRng_rng0
  exact not_pcoord_ice M0 _ rfl (by norm_num [M0, iceCond]) (hw.2.2.1 _ hmem)

/-- **C8 (amended).**  In the output of `generateWorld`, no two voxels across
the combined regular, glowing, interactive-ice and water sets share the same
integer lattice coordinate.  The mechanism differs from the claim: regular and
glowing voxels do funnel through the occupancy-checked `add` (their
coordinates are all registered in the occupancy set), but interactive-ice and
water voxels are pushed directly, bypassing `add` — their cells are never
registered.  They stay distinct from the `add`-emitted voxels by geometry
alone: every `add`-written cell has y ≥ 0, lies outside the pond interior, or
sits at y ≤ −7, while ice cells sit at y = −2 and water cells at y = −6 inside
the pond interior, one per column. -/
theorem generateWorld_unique_amended (M : JsMath) (rng : ℕ → ℚ)
    (hv : ValidRng rng) :
    (combinedCoords (generateWorld M rng)).Nodup ∧
    (∀ c ∈ ((generateWorld M rng).regular ++ (generateWorld M rng).glowing).map coordOf,
      c ∈ (generateWorld M rng).occupied) ∧
    (∀ v ∈ (generateWorld M rng).interactiveIce,
      coordOf v ∉ (generateWorld M rng).occupied) ∧
    (∀ v ∈ (generateWorld M rng).waterVoxels,
      coordOf v ∉ (generateWorld M rng).occupied) :=
  winv_combined M _ (generateWorld_winv M rng hv)

/-- Witness for the amended C8 theorem at the concrete interpretation `M0`
and the all-zero random stream. -/
theorem generateWorld_unique_amended_witness :
    ValidRng rng0 ∧ (combinedCoords (generateWorld M0 rng0)).Nodup :=
  ⟨validRng_rng0, (generateWorld_unique_amended M0 rng0 validRng_rng0).1⟩
